import Mathlib

/-!
Verification development for the komtek migration helper scripts.

The Python sources under `helper_scripts/` are shallowly embedded: every
function that a claim touches is translated into an executable Lean
definition, with Python exceptions made explicit through `Except PyErr`.
Machine integers are modelled as `Int` (Python integers are unbounded, so no
wrap-around is introduced).  Unicode-dependent primitives
(`unicodedata.normalize("NFKD", ...)`, `str.isspace`) are modelled by
explicit tables restricted to the characters exercised in this development;
ASCII characters are fixed points of NFKD in Unicode, and the tables respect
that.
-/

namespace Komtek

/-- Python exception values that the scripts can raise.  Message payloads are
kept informal: control flow never inspects them. -/
inductive PyErr where
  | valueError (msg : String)
  | jsonDecodeError (msg : String)
  | typeError (msg : String)
  | attributeError (msg : String)
  | unicodeDecodeError (msg : String)
  | fileNotFound (path : String)
  | keyError (key : String)
deriving DecidableEq

/-- Python `str.isspace` for the characters this development manipulates:
ASCII whitespace, the C1 controls Python counts as whitespace, NBSP and the
standard Unicode space separators. -/
def pyIsSpace (c : Char) : Bool :=
  c.toNat = 32 || (9 ≤ c.toNat && c.toNat ≤ 13) ||
  (0x1c ≤ c.toNat && c.toNat ≤ 0x1f) || c.toNat = 0x85 || c.toNat = 0xa0 ||
  c.toNat = 0x1680 || (0x2000 ≤ c.toNat && c.toNat ≤ 0x200a) ||
  c.toNat = 0x2028 || c.toNat = 0x2029 || c.toNat = 0x202f ||
  c.toNat = 0x205f || c.toNat = 0x3000

/-- Drop characters satisfying `p` from both ends of a character list. -/
def stripBy (p : Char → Bool) (l : List Char) : List Char :=
  ((l.dropWhile p).reverse.dropWhile p).reverse

/-- Python `str.strip()` (no argument): strip whitespace from both ends. -/
def pyStrip (s : String) : String :=
  ⟨stripBy pyIsSpace s.data⟩

/-- Python `str.strip(chars)` restricted to a single strip character, as in
`line.strip("|")`. -/
def pyStripChar (t : Char) (s : String) : String :=
  ⟨stripBy (fun c => c = t) s.data⟩

/-- The placeholder tokens every script collapses to an absent value
(`PLACEHOLDER_NULLS` / `NULL_VALUES` in the sources). -/
def NULL_VALUES : List String := ["", "-", "NULL", "null", "[NULL]"]

/-- The `SUBSTITUTIONS` translation table shared verbatim by all scripts. -/
def SUBSTITUTIONS : List (Char × String) :=
  [('ß', "ss"), ('æ', "ae"), ('Æ', "AE"), ('ø', "o"), ('Ø', "O"),
   ('đ', "d"), ('Đ', "D"), ('ł', "l"), ('Ł', "L")]

/-- Python `str.translate(SUBSTITUTIONS)`: map each character through the
table, characters without an entry pass through unchanged. -/
def pyTranslate (s : String) : String :=
  ⟨(s.data.map fun c =>
      match SUBSTITUTIONS.lookup c with
      | some r => r.data
      | none => [c]).flatten⟩

/-- NFKD character decomposition, restricted to the non-ASCII characters
exercised in this development (data from UnicodeData.txt); every character
without an entry — in particular every ASCII character, which Unicode leaves
undecomposed — maps to itself. -/
def NFKD_TABLE : List (Char × List Char) :=
  [('é', ['e', Char.ofNat 0x301]),   -- e acute: e + combining acute
   ('Á', ['A', Char.ofNat 0x301]),   -- A acute
   ('ü', ['u', Char.ofNat 0x308]),   -- u diaeresis
   ('Ä', ['A', Char.ofNat 0x308]),   -- A diaeresis
   ('ä', ['a', Char.ofNat 0x308]),   -- a diaeresis
   ('ö', ['o', Char.ofNat 0x308]),   -- o diaeresis
   ('Ö', ['O', Char.ofNat 0x308]),   -- O diaeresis
   ('Ü', ['U', Char.ofNat 0x308]),   -- U diaeresis
   ('á', ['a', Char.ofNat 0x301]),   -- a acute
   ('è', ['e', Char.ofNat 0x300]),   -- e grave
   ('ﬁ', ['f', 'i']),                -- fi ligature (compatibility)
   ('²', ['2']),                     -- superscript two (compatibility)
   (Char.ofNat 0xa0, [' '])]              -- no-break space (compatibility)

/-- One character of `unicodedata.normalize("NFKD", ...)`. -/
def nfkdChar (c : Char) : List Char :=
  (NFKD_TABLE.lookup c).getD [c]

/-- `unicodedata.normalize("NFKD", s)` under the table above. -/
def pyNFKD (s : String) : String :=
  ⟨(s.data.map nfkdChar).flatten⟩

/-- `s.encode("ascii", "ignore").decode("ascii")`: drop every non-ASCII
character. -/
def asciiIgnore (s : String) : String :=
  ⟨s.data.filter fun c => c.toNat ≤ 127⟩

/-- `normalize_text`, defined identically in all the migration scripts:
collapse placeholder tokens to `None`, apply the substitution table, NFKD
decompose, then drop all non-ASCII characters. -/
def normalize_text : Option String → Option String
  | none => none
  | some v =>
    let trimmed := pyStrip v
    if trimmed ∈ NULL_VALUES then none
    else some (asciiIgnore (pyNFKD (pyTranslate trimmed)))

/-- `clean_value`, defined identically in all the migration scripts. -/
def clean_value : Option String → Option String
  | none => none
  | some v =>
    let trimmed := pyStrip v
    if trimmed ∈ NULL_VALUES then none else some trimmed

/-- `strip_outer_quotes`, defined identically in all the migration scripts. -/
def strip_outer_quotes : Option String → Option String
  | none => none
  | some v =>
    let stripped := pyStrip v
    if stripped.data.headD ' ' = '"' && stripped.data.getLastD ' ' = '"' &&
        2 ≤ stripped.length
    then some ⟨(stripped.data.drop 1).dropLast⟩
    else some stripped

/-- Digit run of a Python integer literal, allowing single underscores
between digits (`int("1_0") == 10`, while `"1__0"`, `"1_"` fail). -/
def parseUintGo : List Char → Nat → Option Nat
  | [], acc => some acc
  | '_' :: c :: rest, acc =>
    if c.isDigit then parseUintGo rest (acc * 10 + (c.toNat - 48)) else none
  | c :: rest, acc =>
    if c.isDigit then parseUintGo rest (acc * 10 + (c.toNat - 48)) else none

/-- Python `int(s)` on a string: optional surrounding whitespace, optional
sign, then a digit run; `none` models `ValueError`. -/
def pyIntOfString (s : String) : Option Int :=
  match stripBy pyIsSpace s.data with
  | '+' :: c :: rest =>
    if c.isDigit then (parseUintGo rest (c.toNat - 48)).map Int.ofNat else none
  | '-' :: c :: rest =>
    if c.isDigit then (parseUintGo rest (c.toNat - 48)).map (fun n => -(n : Int))
    else none
  | c :: rest =>
    if c.isDigit then (parseUintGo rest (c.toNat - 48)).map Int.ofNat else none
  | [] => none

/-- Python/JSON values as produced by `json.loads`.  `null` doubles as the
Python `None` object.  Numbers are restricted to integers: the legacy
payloads this pipeline decodes carry integer ids, and no claim exercises
floating point. -/
inductive Json where
  | null
  | bool (b : Bool)
  | num (n : Int)
  | str (s : String)
  | arr (elems : List Json)
  | obj (fields : List (String × Json))

/-- JSON whitespace (the exact set `json.loads` skips). -/
def jsonWs (c : Char) : Bool :=
  c = ' ' || c = '\t' || c = '\n' || c = '\r'

def skipWs (cs : List Char) : List Char :=
  cs.dropWhile jsonWs

def hexVal (c : Char) : Option Nat :=
  if '0' ≤ c && c ≤ '9' then some (c.toNat - 48)
  else if 'a' ≤ c && c ≤ 'f' then some (c.toNat - 87)
  else if 'A' ≤ c && c ≤ 'F' then some (c.toNat - 55)
  else none

/-- Parse the body of a JSON string literal (after the opening quote).
Control characters are accepted raw, matching `json.loads(..., strict=False)`;
the scripts' strict calls are not exercised on control characters. -/
def parseJsonStr : Nat → List Char → List Char → Option (String × List Char)
  | 0, _, _ => none
  | _ + 1, acc, '"' :: rest => some (⟨acc.reverse⟩, rest)
  | fuel + 1, acc, '\\' :: e :: rest =>
    match e with
    | '"' => parseJsonStr fuel ('"' :: acc) rest
    | '\\' => parseJsonStr fuel ('\\' :: acc) rest
    | '/' => parseJsonStr fuel ('/' :: acc) rest
    | 'b' => parseJsonStr fuel ('\x08' :: acc) rest
    | 'f' => parseJsonStr fuel ('\x0c' :: acc) rest
    | 'n' => parseJsonStr fuel ('\n' :: acc) rest
    | 'r' => parseJsonStr fuel ('\r' :: acc) rest
    | 't' => parseJsonStr fuel ('\t' :: acc) rest
    | 'u' =>
      match rest with
      | a :: b :: c :: d :: rest2 =>
        match hexVal a, hexVal b, hexVal c, hexVal d with
        | some x, some y, some z, some w =>
          let n := ((x * 16 + y) * 16 + z) * 16 + w
          parseJsonStr fuel (Char.ofNat n :: acc) rest2
        | _, _, _, _ => none
      | _ => none
    | _ => none
  | fuel + 1, acc, c :: rest => parseJsonStr fuel (c :: acc) rest
  | _, _, [] => none

/-- Parse a JSON number (integers only, per the `Json.num` restriction):
optional minus, then `0` or a nonzero-led digit run. -/
def parseJsonNum (cs : List Char) : Option (Int × List Char) :=
  let core : List Char → Option (Nat × List Char) := fun l =>
    match l with
    | '0' :: rest => some (0, rest)
    | c :: _ =>
      if c.isDigit && c ≠ '0' then
        let digs := l.takeWhile Char.isDigit
        some (digs.foldl (fun a d => a * 10 + (d.toNat - 48)) 0,
              l.dropWhile Char.isDigit)
      else none
    | [] => none
  match cs with
  | '-' :: rest => (core rest).map fun (n, r) => (-(n : Int), r)
  | _ => (core cs).map fun (n, r) => ((n : Int), r)

mutual

/-- Recursive-descent JSON value parser with explicit fuel. -/
def parseJsonVal : Nat → List Char → Option (Json × List Char)
  | 0, _ => none
  | fuel + 1, cs =>
    match skipWs cs with
    | 'n' :: 'u' :: 'l' :: 'l' :: rest => some (.null, rest)
    | 't' :: 'r' :: 'u' :: 'e' :: rest => some (.bool true, rest)
    | 'f' :: 'a' :: 'l' :: 's' :: 'e' :: rest => some (.bool false, rest)
    | '"' :: rest =>
      (parseJsonStr (rest.length + 1) [] rest).map fun (s, r) => (.str s, r)
    | '[' :: rest =>
      match skipWs rest with
      | ']' :: r2 => some (.arr [], r2)
      | _ => parseJsonArr fuel rest []
    | c :: rest =>
      if c.toNat = 0x7b then
        match skipWs rest with
        | r0 =>
          match r0 with
          | c2 :: r2 =>
            if c2.toNat = 0x7d then some (.obj [], r2)
            else parseJsonObj fuel r0 []
          | [] => none
      else (parseJsonNum (c :: rest)).map fun (n, r) => (.num n, r)
    | [] => none

/-- Elements of a JSON array after the opening bracket. -/
def parseJsonArr : Nat → List Char → List Json → Option (Json × List Char)
  | 0, _, _ => none
  | fuel + 1, cs, acc =>
    match parseJsonVal fuel cs with
    | some (v, rest) =>
      match skipWs rest with
      | ',' :: r2 => parseJsonArr fuel r2 (v :: acc)
      | ']' :: r2 => some (.arr (v :: acc).reverse, r2)
      | _ => none
    | none => none

/-- Members of a JSON object after the opening brace. -/
def parseJsonObj : Nat → List Char → List (String × Json) →
    Option (Json × List Char)
  | 0, _, _ => none
  | fuel + 1, cs, acc =>
    match skipWs cs with
    | '"' :: rest =>
      match parseJsonStr (rest.length + 1) [] rest with
      | some (k, r1) =>
        match skipWs r1 with
        | ':' :: r2 =>
          match parseJsonVal fuel r2 with
          | some (v, r3) =>
            match skipWs r3 with
            | ',' :: r4 => parseJsonObj fuel r4 ((k, v) :: acc)
            | c :: r4 =>
              if c.toNat = 0x7d then some (.obj ((k, v) :: acc).reverse, r4)
              else none
            | [] => none
          | none => none
        | _ => none
      | none => none
    | _ => none

end

/-- `json.loads`: parse one JSON document, requiring the whole input to be
consumed; `none` models `json.JSONDecodeError`. -/
def jsonLoads (s : String) : Option Json :=
  match parseJsonVal (s.data.length + 1) s.data with
  | some (v, rest) => if skipWs rest = [] then some v else none
  | none => none

/-- UTF-8 encoding of one character (`str.encode("utf-8")`). -/
def utf8Bytes (c : Char) : List Nat :=
  let n := c.toNat
  if n ≤ 0x7f then [n]
  else if n ≤ 0x7ff then [0xc0 + n / 64, 0x80 + n % 64]
  else if n ≤ 0xffff then
    [0xe0 + n / 4096, 0x80 + n / 64 % 64, 0x80 + n % 64]
  else
    [0xf0 + n / 262144, 0x80 + n / 4096 % 64, 0x80 + n / 64 % 64,
     0x80 + n % 64]

def octVal (c : Char) : Option Nat :=
  if '0' ≤ c && c ≤ '7' then some (c.toNat - 48) else none

/-- Decoder core of `bytes.decode("unicode_escape")` over a byte list: bytes
are read as Latin-1 characters, backslash escapes are interpreted, and a
truncated escape (trailing backslash, short `\x`/`\u`) is a decode error
(`none`).  Unknown escapes are kept verbatim, as CPython does. -/
def uEscapeGo : Nat → List Nat → Option (List Char)
  | 0, _ => none
  | _ + 1, [] => some []
  | fuel + 1, 92 :: rest =>
    match rest with
    | [] => none
    | e :: rest2 =>
      let mkc : Nat → Char := fun n => Char.ofNat n
      let cont : List Char → List Nat → Option (List Char) :=
        fun pre r => (uEscapeGo fuel r).map (fun tail => pre ++ tail)
      if e = 110 then cont ['\n'] rest2          -- n
      else if e = 116 then cont ['\t'] rest2     -- t
      else if e = 114 then cont ['\r'] rest2     -- r
      else if e = 98 then cont ['\x08'] rest2    -- b
      else if e = 102 then cont ['\x0c'] rest2   -- f
      else if e = 97 then cont ['\x07'] rest2    -- a
      else if e = 118 then cont ['\x0b'] rest2   -- v
      else if e = 92 then cont ['\\'] rest2      -- backslash
      else if e = 39 then cont [mkc 39] rest2    -- single quote
      else if e = 34 then cont ['"'] rest2       -- double quote
      else if e = 10 then cont [] rest2          -- line continuation
      else if 48 ≤ e && e ≤ 55 then              -- octal, up to 3 digits
        match rest2 with
        | d2 :: d3 :: r3 =>
          if 48 ≤ d2 && d2 ≤ 55 then
            if 48 ≤ d3 && d3 ≤ 55 then
              cont [mkc (((e - 48) * 8 + (d2 - 48)) * 8 + (d3 - 48))] r3
            else cont [mkc ((e - 48) * 8 + (d2 - 48))] (d3 :: r3)
          else cont [mkc (e - 48)] (d2 :: d3 :: r3)
        | [d2] =>
          if 48 ≤ d2 && d2 ≤ 55 then cont [mkc ((e - 48) * 8 + (d2 - 48))] []
          else cont [mkc (e - 48)] [d2]
        | [] => cont [mkc (e - 48)] []
      else if e = 120 then                        -- x, two hex digits
        match rest2 with
        | h1 :: h2 :: r3 =>
          match hexVal (mkc h1), hexVal (mkc h2) with
          | some x, some y => cont [mkc (x * 16 + y)] r3
          | _, _ => none
        | _ => none
      else if e = 117 then                        -- u, four hex digits
        match rest2 with
        | h1 :: h2 :: h3 :: h4 :: r3 =>
          match hexVal (mkc h1), hexVal (mkc h2), hexVal (mkc h3),
                hexVal (mkc h4) with
          | some x, some y, some z, some w =>
            let n := ((x * 16 + y) * 16 + z) * 16 + w
            cont [mkc n] r3
          | _, _, _, _ => none
        | _ => none
      else cont [mkc 92, mkc e] rest2             -- unknown escape kept
  | fuel + 1, b :: rest =>
    (uEscapeGo fuel rest).map (fun tail => Char.ofNat b :: tail)

/-- `value.encode("utf-8").decode("unicode_escape")`; the error branch models
the `ValueError`/`UnicodeDecodeError` CPython raises on truncated escapes. -/
def uEscapeDecode (s : String) : Except PyErr String :=
  let bs := (s.data.map utf8Bytes).flatten
  match uEscapeGo (bs.length + 1) bs with
  | some cs => .ok ⟨cs⟩
  | none => .error (.unicodeDecodeError "truncated escape in unicode_escape")

/-- Python truthiness of a decoded JSON value. -/
def pyTruthy : Json → Bool
  | .null => false
  | .bool b => b
  | .num n => n != 0
  | .str s => s != ""
  | .arr l => !l.isEmpty
  | .obj l => !l.isEmpty

/-- `x or y` on decoded values. -/
def pyOrJson (x y : Json) : Json :=
  if pyTruthy x then x else y

/-- `x or y` where `x : Optional[str]` (empty string is falsy). -/
def pyOrStr (x y : Option String) : Option String :=
  match x with
  | some s => if s = "" then y else some s
  | none => y

/-- `x or d` where `x : Optional[int]` (zero is falsy). -/
def pyOrInt (x : Option Int) (d : Int) : Int :=
  match x with
  | some n => if n = 0 then d else n
  | none => d

/-- `value.get(key)` on a decoded value: `AttributeError` unless it is a
dict; a missing key yields `None`. -/
def pyAttrGet (j : Json) (k : String) : Except PyErr Json :=
  match j with
  | .obj fs => .ok ((fs.lookup k).getD .null)
  | _ => .error (.attributeError "get")

/-- `value.get(key, default)` on a decoded value. -/
def pyAttrGetD (j : Json) (k : String) (d : Json) : Except PyErr Json :=
  match j with
  | .obj fs => .ok ((fs.lookup k).getD d)
  | _ => .error (.attributeError "get")

/-- Replace-or-append update of an association list, matching Python dict
assignment (existing keys keep their position). -/
def assocUpdate (fs : List (String × Json)) (k : String) (v : Json) :
    List (String × Json) :=
  if (fs.lookup k).isSome then
    fs.map fun p => if p.1 = k then (k, v) else p
  else fs ++ [(k, v)]

/-- `dict[key] = value` on an object value. -/
def objSet (j : Json) (k : String) (v : Json) : Json :=
  match j with
  | .obj fs => .obj (assocUpdate fs k v)
  | other => other

/-- Python `int(x)` on a decoded value: ints pass through, bools coerce to
0/1, strings parse, everything else is a `TypeError`. -/
def pyIntOfJson (j : Json) : Except PyErr Int :=
  match j with
  | .num n => .ok n
  | .bool b => .ok (if b then 1 else 0)
  | .str s =>
    match pyIntOfString s with
    | some n => .ok n
    | none => .error (.valueError "invalid literal for int")
  | _ => .error (.typeError "int() argument")

/-- Python `str(x)` on a decoded value.  For lists/dicts the exact `repr`
spelling (single quotes) is approximated by JSON spelling; the scripts only
feed such strings to integer parsing, which fails on either spelling. -/
def pyStrOfJson : Json → String
  | .null => "None"
  | .bool b => if b then "True" else "False"
  | .num n => toString n
  | .str s => s
  | .arr _ => "[repr]"
  | .obj _ => "[repr]"

/-- An old-to-new identifier map (`Dict[int, int]` in the scripts). -/
abbrev IdMap := List (Int × Int)

def IdMap.find (m : IdMap) (k : Int) : Option Int :=
  List.lookup k m

/-- `dict.get(key)` where the key may be the Python `None`/a decoded value:
int-keyed dicts only ever match numeric (or bool, via int subtyping) keys. -/
def idMapGetJson (m : IdMap) (j : Json) : Option Int :=
  match j with
  | .num n => m.find n
  | .bool b => m.find (if b then 1 else 0)
  | _ => none

/-- Python `sorted(set(xs))` for integer lists: dedup and sort ascending. -/
def pySortedSet (l : List Int) : List Int :=
  l.foldr (fun x acc => if x ∈ acc then acc else List.orderedInsert (· ≤ ·) x acc) []

end Komtek

namespace Komtek

/-- `value` with a JSON `null` collapsed to the Python `None` that
`json.loads` actually returns for a top-level `null` document. -/
def jsonToOpt : Json → Option Json
  | .null => none
  | v => some v

/-- A Python dict destined for a JSON artifact. -/
abbrev Dict := List (String × Json)

def jopt : Option Int → Json
  | some n => .num n
  | none => .null

def jstr : Option String → Json
  | some s => .str s
  | none => .null

/-- `x or d` for `Optional[str]` against a string default. -/
def pyOrStrD (x : Option String) (d : String) : String :=
  match x with
  | some s => if s = "" then d else s
  | none => d

/-- `str(x)` for `Optional[int]`. -/
def pyStrOfOptInt : Option Int → String
  | some n => toString n
  | none => "None"

/-- `s.replace(",", "")`. -/
def removeCommas (s : String) : String :=
  ⟨s.data.filter fun c => c ≠ ','⟩

/-- Integer value of a dict entry, `none` for `null`/missing/non-numeric. -/
def dictOptInt (d : Dict) (k : String) : Option Int :=
  match List.lookup k d with
  | some (.num n) => some n
  | _ => none

/-- `sorted(l, key=...)` where the key expression is `Optional[int]`:
CPython raises `TypeError` as soon as a `None` key is compared, which with
two or more elements happens whenever any key is `None`. -/
def pySortByOptInt (key : α → Option Int) (l : List α) :
    Except PyErr (List α) :=
  if l.length ≤ 1 then .ok l
  else if l.all fun a => (key a).isSome then
    .ok (List.insertionSort (fun a b => (key a).getD 0 ≤ (key b).getD 0) l)
  else .error (.typeError "NoneType is not orderable")

/-- Character-level `str.split(sep)`. -/
def splitCharGo (sep : Char) : List Char → List Char → List (List Char)
  | [], cur => [cur.reverse]
  | c :: rest, cur =>
    if c = sep then cur.reverse :: splitCharGo sep rest []
    else splitCharGo sep rest (c :: cur)

def pySplitChar (sep : Char) (s : String) : List String :=
  (splitCharGo sep s.data []).map fun l => ⟨l⟩

/-- Python `str.splitlines()` for the newline conventions the datasets use
(`\n`, `\r`, `\r\n`); a trailing terminator yields no empty final line. -/
def splitlinesGo : List Char → List Char → List String
  | [], cur => if cur.isEmpty then [] else [⟨cur.reverse⟩]
  | '\r' :: '\n' :: rest, cur => ⟨cur.reverse⟩ :: splitlinesGo rest []
  | '\r' :: rest, cur => ⟨cur.reverse⟩ :: splitlinesGo rest []
  | '\n' :: rest, cur => ⟨cur.reverse⟩ :: splitlinesGo rest []
  | c :: rest, cur => splitlinesGo rest (c :: cur)

def pySplitlines (s : String) : List String :=
  splitlinesGo s.data []

/-- A Legacy Row as the table readers build it: `dict(zip(headers, cells))`
with cell values `Optional[str]`. -/
abbrev Row := List (String × Option String)

/-- `row.get(key)`: `None` both for a missing key and a `None` cell. -/
def Row.get (r : Row) (k : String) : Option String :=
  match List.lookup k r with
  | some v => v
  | none => none

def rowUpdate (r : Row) (k : String) (v : Option String) : Row :=
  if (List.lookup k r).isSome then
    r.map fun p => if p.1 = k then (k, v) else p
  else r ++ [(k, v)]

/-- `dict(pairs)`: later duplicates overwrite in place. -/
def dictOfPairs (ps : List (String × Option String)) : Row :=
  ps.foldl (fun r p => rowUpdate r p.1 p.2) []

/-- `[cell.strip() for cell in line.strip("|").split("|")]`. -/
def lineCells (line : String) : List String :=
  (pySplitChar '|' (pyStripChar '|' line)).map pyStrip

/-- The filesystem as the scripts see it: a path-indexed store of text files,
plus the basename index `index_image_files` builds (a directory-scan I/O
adapter, specified only at its interface boundary). -/
structure FS where
  files : List (String × String)
  imageIndex : List (String × String)

/-- `path.read_text(encoding="utf-8")`: `FileNotFoundError` when absent. -/
def FS.read (fs : FS) (p : String) : Except PyErr String :=
  match List.lookup p fs.files with
  | some t => .ok t
  | none => .error (.fileNotFound p)

/-- Data rows of a two-line-header pipe table, without padding (streams,
stream_groups, analytics, face_lists, event_manager variants). -/
def tableRows (lines : List String) : List Row :=
  let headers := lineCells (lines.headD "")
  ((lines.drop 2).filter fun l => pyStrip l ≠ "").map fun line =>
    dictOfPairs (List.zip headers ((lineCells line).map some))

/-- Data rows with short rows padded by `None` cells (alpr and assets
variants). -/
def tableRowsPadded (lines : List String) : List Row :=
  let headers := lineCells (lines.headD "")
  ((lines.drop 2).filter fun l => pyStrip l ≠ "").map fun line =>
    let cells := (lineCells line).map some
    let cells := cells ++ List.replicate (headers.length - cells.length) none
    dictOfPairs (List.zip headers cells)


/-- The `restrictions.creator_id` remapping block shared verbatim by
`streams_migration.build_records` and
`analytics_migration.build_analytics_records`: read the creator from a
truthy restrictions payload (`.get` raises on a non-dict), look it up in the
users map, and rewrite the field on a non-`None` payload (`{**restrictions}`
raises `TypeError` on a non-dict).  Returns (restrictions, old_creator_id,
new_creator_id). -/
def remap_creator (restrictions0 : Option Json) (user_map : IdMap) :
    Except PyErr (Option Json × Option Json × Option Int) := do
  let old_creator_id : Option Json ←
    match restrictions0 with
    | some r =>
      if pyTruthy r then do
        let v ← pyAttrGet r "creator_id"
        pure (jsonToOpt v)
      else pure none
    | none => pure none
  let new_creator_id :=
    match old_creator_id with
    | some j => idMapGetJson user_map j
    | none => none
  let restrictions : Option Json ←
    match restrictions0 with
    | some (.obj fs) =>
      pure (some (.obj (assocUpdate fs "creator_id" (jopt new_creator_id))))
    | some _ => .error (.typeError "argument is not a mapping")
    | none => pure none
  return (restrictions, old_creator_id, new_creator_id)

end Komtek

namespace Komtek.Streams

open Komtek

/-- `streams_migration.to_int`: comma-stripping integer coercion whose
`int(...)` call is NOT guarded, so a malformed value raises `ValueError`. -/
def to_int (value : Option String) : Except PyErr (Option Int) :=
  match clean_value value with
  | none => .ok none
  | some cleaned =>
    match pyIntOfString (removeCommas cleaned) with
    | some n => .ok (some n)
    | none => .error (.valueError "invalid literal for int with base 10")

/-- `streams_migration.parse_json_field`: unicode-unescape then parse; only
the first `json.loads` is guarded, the fallback raises to the caller. -/
def parse_json_field (value : Option String) : Except PyErr (Option Json) :=
  match clean_value value with
  | none => .ok none
  | some cleaned => do
    let unquoted := (strip_outer_quotes (some cleaned)).getD ""
    let decoded ← uEscapeDecode unquoted
    match jsonLoads decoded with
    | some v => .ok (jsonToOpt v)
    | none =>
      match jsonLoads unquoted with
      | some v => .ok (jsonToOpt v)
      | none => .error (.jsonDecodeError "Expecting value")

/-- `streams_migration.parse_pipe_table`: read the file and parse its lines;
fewer than two lines yields an empty row list (no error). -/
def parse_pipe_table (fs : FS) (path : String) : Except PyErr (List Row) := do
  let text ← fs.read path
  let lines := pySplitlines text
  if lines.length < 2 then return []
  else return tableRows lines

/-- `streams_migration.StreamRecord`. -/
structure StreamRecord where
  id : Int
  old_id : Int
  name : String
  path : Option String
  width : Option Int
  height : Option Int
  file_name : Option String
  status : Int
  created_at : Option String
  lat : Option String
  lng : Option String
  type : Option String
  uuid : Option String
  address : String
  params : Option Json
  auth : Option Json
  direction : Option Int
  client_id : Int
  old_client_id : Int
  codec : Option String
  timezone : Option String
  duration : Option Int
  restrictions : Option Json
  old_creator_id : Option Json
  new_creator_id : Option Int
  parent_id : Int
  old_parent_id : Int

/-- The per-row loop of `streams_migration.build_records`, in source order:
status sentinel, client check, parent check, name check, then record
construction (expressions that can raise are sequenced as Python evaluates
them). -/
def buildGo (cmap sgmap umap : IdMap) :
    List Row → Except PyErr (List StreamRecord × List Dict)
  | [] => .ok ([], [])
  | row :: rest => do
    let status ← to_int (row.get "status")
    if status = some (-1) then do
      let old_id ← to_int (row.get "id")
      let oldc ← to_int (row.get "client_id")
      let oldp ← to_int (row.get "parent_id")
      let entry : Dict :=
        [("old_id", jopt old_id),
         ("name", jstr (pyOrStr (normalize_text (row.get "name")) (row.get "name"))),
         ("old_client_id", jopt oldc),
         ("old_parent_id", jopt oldp),
         ("reason", .str "status = -1 (excluded)")]
      let (recs, unms) ← buildGo cmap sgmap umap rest
      return (recs, entry :: unms)
    else do
      let client_id ← to_int (row.get "client_id")
      let parentOpt ← to_int (row.get "parent_id")
      let parent_id := pyOrInt parentOpt 0
      let newClient? := client_id.bind fun c => cmap.find c
      match client_id, newClient? with
      | none, _ | some _, none => do
        let old_id ← to_int (row.get "id")
        let entry : Dict :=
          [("old_id", jopt old_id),
           ("name", jstr (pyOrStr (normalize_text (row.get "name")) (row.get "name"))),
           ("old_client_id", jopt client_id),
           ("old_parent_id", .num parent_id),
           ("reason", .str "client_id missing from clients mapping")]
        let (recs, unms) ← buildGo cmap sgmap umap rest
        return (recs, entry :: unms)
      | some c, some newc =>
        if parent_id ≠ 0 && (sgmap.find parent_id).isNone then do
          let old_id ← to_int (row.get "id")
          let entry : Dict :=
            [("old_id", jopt old_id),
             ("name", jstr (pyOrStr (normalize_text (row.get "name")) (row.get "name"))),
             ("old_client_id", .num c),
             ("old_parent_id", .num parent_id),
             ("reason", .str "parent_id missing from stream_groups mapping")]
          let (recs, unms) ← buildGo cmap sgmap umap rest
          return (recs, entry :: unms)
        else
          match normalize_text (row.get "name") with
          | none => do
            let old_id ← to_int (row.get "id")
            let entry : Dict :=
              [("old_id", jopt old_id),
               ("old_client_id", .num c),
               ("old_parent_id", .num parent_id),
               ("reason", .str "name missing after normalization")]
            let (recs, unms) ← buildGo cmap sgmap umap rest
            return (recs, entry :: unms)
          | some normalized_name => do
            let restrictions0 ← parse_json_field (row.get "restrictions")
            let (restrictions, old_creator_id, new_creator_id) ←
              remap_creator restrictions0 umap
            let old_id ← to_int (row.get "id")
            let width ← to_int (row.get "width")
            let height ← to_int (row.get "height")
            let params ← parse_json_field (row.get "params")
            let auth ← parse_json_field (row.get "auth")
            let direction ← to_int (row.get "direction")
            let duration ← to_int (row.get "duration")
            let record : StreamRecord :=
              { id := pyOrInt old_id 0
                old_id := pyOrInt old_id 0
                name := normalized_name
                path := normalize_text (strip_outer_quotes (row.get "path"))
                width := width
                height := height
                file_name := normalize_text (strip_outer_quotes (row.get "file_name"))
                status := pyOrInt status 0
                created_at := clean_value (row.get "created_at")
                lat := clean_value (row.get "lat")
                lng := clean_value (row.get "lng")
                type := normalize_text (row.get "type")
                uuid := normalize_text (row.get "uuid")
                address := pyOrStrD (normalize_text (strip_outer_quotes (row.get "address"))) ""
                params := params
                auth := auth
                direction := direction
                client_id := newc
                old_client_id := c
                codec := normalize_text (row.get "codec")
                timezone := normalize_text (row.get "timezone")
                duration := duration
                restrictions := restrictions
                old_creator_id := old_creator_id
                new_creator_id := new_creator_id
                parent_id := (sgmap.find parent_id).getD 0
                old_parent_id := parent_id }
            let (recs, unms) ← buildGo cmap sgmap umap rest
            return (record :: recs, unms)

/-- `streams_migration.build_records`: process every row, then apply the two
final stable sorts. -/
def build_records (rows : List Row) (client_map stream_group_map user_map : IdMap) :
    Except PyErr (List StreamRecord × List Dict) := do
  let (records, unmapped_old) ← buildGo client_map stream_group_map user_map rows
  let records := List.insertionSort (fun a b => a.id ≤ b.id) records
  let unmapped_old := List.insertionSort
    (fun a b => ((dictOptInt a "old_id").getD 0) ≤ ((dictOptInt b "old_id").getD 0))
    unmapped_old
  return (records, unmapped_old)

end Komtek.Streams

namespace Komtek.StreamGroups

open Komtek

/-- A stream-groups Legacy Row after `parse_pipe_table`'s per-column
coercion: the id columns are parsed integers, the rest raw text. -/
structure SGRow where
  id : Option Int
  parent_id : Option Int
  client_id : Option Int
  name : Option String

/-- A mapped stream-group record (a dict in the source). -/
structure SGRecord where
  id : Option Int
  old_id : Option Int
  parent_id : Option Int
  old_parent_id : Option Int
  client_id : Int
  old_client_id : Int
  name : String

/-- The per-row loop of `stream_groups_migration.build_records`: a row whose
client is unmapped is diverted; a client-mapped row whose name normalizes to
absent raises `ValueError`, aborting the whole run. -/
def buildGo (client_map : IdMap) :
    List SGRow → Except PyErr (List SGRecord × List Dict)
  | [] => .ok ([], [])
  | row :: rest =>
    let inMap := match row.client_id with
      | some c => (client_map.find c).isSome
      | none => false
    if !inMap then do
      let entry : Dict :=
        [("old_id", jopt row.id),
         ("name", jstr (pyOrStr (normalize_text row.name) row.name)),
         ("old_client_id", jopt row.client_id),
         ("parent_id", jopt row.parent_id),
         ("reason", .str "client_id missing from clients mapping")]
      let (recs, unms) ← buildGo client_map rest
      return (recs, entry :: unms)
    else
      match normalize_text row.name with
      | none =>
        .error (.valueError
          ("Stream group name missing for id=" ++ pyStrOfOptInt row.id))
      | some nm => do
        let c := (row.client_id).getD 0
        let record : SGRecord :=
          { id := row.id
            old_id := row.id
            parent_id := row.parent_id
            old_parent_id := row.parent_id
            client_id := (client_map.find c).getD 0
            old_client_id := c
            name := nm }
        let (recs, unms) ← buildGo client_map rest
        return (record :: recs, unms)

/-- `stream_groups_migration.build_records`, including the two final sorts
(which raise `TypeError` if a `None` id must be compared). -/
def build_records (rows : List SGRow) (client_map : IdMap) :
    Except PyErr (List SGRecord × List Dict) := do
  let (records, unmapped_old) ← buildGo client_map rows
  let records ← pySortByOptInt (fun r => r.id) records
  let unmapped_old ← pySortByOptInt (fun d => dictOptInt d "old_id") unmapped_old
  return (records, unmapped_old)

end Komtek.StreamGroups

namespace Komtek

/-- ASCII `str.lower()` (the boolean tokens it is applied to are ASCII). -/
def pyLower (s : String) : String :=
  ⟨s.data.map fun c =>
    if 'A' ≤ c && c ≤ 'Z' then Char.ofNat (c.toNat + 32) else c⟩

/-- `for x in value`: lists yield elements, strings their characters, dicts
their keys; everything else raises `TypeError`. -/
def pyIterJson : Json → Except PyErr (List Json)
  | .arr l => .ok l
  | .str s => .ok (s.data.map fun c => .str ⟨[c]⟩)
  | .obj fs => .ok (fs.map fun p => .str p.1)
  | _ => .error (.typeError "object is not iterable")

/-- Python `x is None` on a decoded value. -/
def pyIsNone : Json → Bool
  | .null => true
  | _ => false

/-- Python `==` between a decoded value and a string literal. -/
def pyEqStr (j : Json) (s : String) : Bool :=
  match j with
  | .str t => t = s
  | _ => false

/-- A fan-out map: one legacy stream id to several new analytics ids. -/
abbrev FanMap := List (Int × List Int)

/-- `stream_map.setdefault(k, []).append(n)` preserving insertion order. -/
def fanAppend (m : FanMap) (k : Int) (n : Int) : FanMap :=
  if (List.lookup k m).isSome then
    m.map fun p => if p.1 = k then (p.1, p.2 ++ [n]) else p
  else m ++ [(k, [n])]

end Komtek

namespace Komtek.Alpr

open Komtek

/-- `alpr_lists_migration.parse_int`: guarded integer coercion, `None` on
failure. -/
def parse_int (value : Option String) : Option Int :=
  match clean_value value with
  | none => none
  | some c => pyIntOfString (removeCommas c)

/-- `alpr_lists_migration.parse_bool`. -/
def parse_bool (value : Option String) : Option Bool :=
  match clean_value value with
  | none => none
  | some c =>
    let lowered := pyLower c
    if lowered ∈ ["true", "t", "1", "yes"] then some true
    else if lowered ∈ ["false", "f", "0", "no"] then some false
    else none

/-- Final fallback of `alpr_lists_migration.parse_json_field`:
`json.loads(strip_outer_quotes(candidate) or candidate)` with every failure
caught (`return None`). -/
def pjfFinal (candidate : String) : Except PyErr (Option Json) :=
  let unq := (strip_outer_quotes (some candidate)).getD ""
  let target := if unq = "" then candidate else unq
  match jsonLoads target with
  | some v => .ok (jsonToOpt v)
  | none => .ok none

/-- `alpr_lists_migration.parse_json_field`: the bounded two-iteration peel
loop.  Every `json.loads` failure is caught, so no branch raises.  A non-str
scalar makes the second iteration reparse the same candidate with the same
scalar outcome, so it falls directly to the fallback. -/
def parse_json_field (raw : Option String) : Except PyErr (Option Json) :=
  match raw with
  | none => .ok none
  | some r =>
    if pyStrip r ∈ NULL_VALUES then .ok none
    else
      let c0 := pyStrip r
      match jsonLoads c0 with
      | none => pjfFinal c0
      | some (.obj fs) => .ok (some (.obj fs))
      | some (.arr xs) => .ok (some (.arr xs))
      | some (.str s1) =>
        match jsonLoads s1 with
        | none => pjfFinal s1
        | some (.obj fs) => .ok (some (.obj fs))
        | some (.arr xs) => .ok (some (.arr xs))
        | some (.str s2) => pjfFinal s2
        | some _ => pjfFinal s1
      | some _ => pjfFinal c0

/-- `alpr_lists_migration.parse_pipe_table` (pads short rows with `None`). -/
def parse_pipe_table (fs : FS) (path : String) : Except PyErr (List Row) := do
  let text ← fs.read path
  let lines := pySplitlines text
  if lines.length < 2 then return []
  else return tableRowsPadded lines

/-- Loop body of `alpr_lists_migration.build_alpr_analytics_map` over the
`mapped` entries of the analytics mapping artifact. -/
def analyticsMapGo : List Json → FanMap → Except PyErr FanMap
  | [], acc => .ok acc
  | entry :: rest, acc => do
    let pn ← pyAttrGet entry "plugin_name"
    if !pyEqStr pn "alpr" then analyticsMapGo rest acc
    else do
      let osid ← pyAttrGet entry "old_stream_id"
      let nid ← pyAttrGet entry "new_id"
      if pyIsNone osid || pyIsNone nid then analyticsMapGo rest acc
      else do
        let k ← pyIntOfJson osid
        let v ← pyIntOfJson nid
        analyticsMapGo rest (fanAppend acc k v)

/-- `alpr_lists_migration.build_alpr_analytics_map` applied to the decoded
mapping artifact: filter `plugin_name == "alpr"` entries, group new ids by
old stream id, then dedup-sort each group. -/
def build_alpr_analytics_map (mapping_data : Json) : Except PyErr FanMap := do
  let entriesJ ← pyAttrGetD mapping_data "mapped" (.arr [])
  let entries ← pyIterJson entriesJ
  let m ← analyticsMapGo entries []
  return m.map fun p => (p.1, pySortedSet p.2)

/-- The fan-out loop inside `build_list_records`: resolve each legacy stream
id independently; hits extend the analytics set, misses (absent or empty
mapping) are collected; the result set is `sorted(set(...))`. -/
def fanout_resolve (m : FanMap) (stream_ids : List Int) :
    List Int × List Int :=
  let go := stream_ids.foldl
    (fun (acc : List Int × List Int) sid =>
      match List.lookup sid m with
      | some ids =>
        if !ids.isEmpty then (acc.1 ++ ids, acc.2) else (acc.1, acc.2 ++ [sid])
      | none => (acc.1, acc.2 ++ [sid]))
    ([], [])
  (pySortedSet go.1, go.2)

/-- `[int(s) for s in streams_raw if parse_int(str(s)) is not None]`: the
guard uses the safe parser, the body the raising `int(...)`. -/
def listIntsOfElems : List Json → Except PyErr (List Int)
  | [] => .ok []
  | s :: rest =>
    if (parse_int (some (pyStrOfJson s))).isSome then do
      let n ← pyIntOfJson s
      let tl ← listIntsOfElems rest
      return (n :: tl)
    else listIntsOfElems rest

/-- `alpr_lists_migration.AlprListRecord`. -/
structure AlprListRecord where
  id : Int
  old_id : Int
  name : String
  comment : Option String
  analytics_ids : List Int
  send_internal_notifications : Bool
  events_holder : Option Json
  status : Int
  created_at : Option String
  list_permissions : Json
  enabled : Option Bool
  color : String
  client_id : Int
  old_client_id : Int
  show_popup_for_internal_notifications : Bool
  unmapped_stream_ids : List Int

/-- Per-row loop of `alpr_lists_migration.build_list_records` (rows arrive
already sorted by legacy id; `next_id` threads through accepted rows
only). -/
def buildGo (cmap : IdMap) (am : FanMap) (umap : IdMap) :
    List Row → Int →
    Except PyErr (List AlprListRecord × List Dict × List Dict)
  | [], _ => .ok ([], [], [])
  | row :: rest, next_id => do
    let old_id := pyOrInt (parse_int (row.get "id")) 0
    let status := pyOrInt (parse_int (row.get "status")) 0
    if status = -1 then do
      let entry : Dict :=
        [("old_id", .num old_id),
         ("name", jstr (pyOrStr (normalize_text (row.get "name")) (row.get "name"))),
         ("old_client_id", jopt (parse_int (row.get "client_id"))),
         ("reason", .str "status -1")]
      let (recs, maps, unms) ← buildGo cmap am umap rest next_id
      return (recs, maps, entry :: unms)
    else
      let old_client_id := parse_int (row.get "client_id")
      match cmap.find (pyOrInt old_client_id 0) with
      | none => do
        let entry : Dict :=
          [("old_id", .num old_id),
           ("name", jstr (pyOrStr (normalize_text (row.get "name")) (row.get "name"))),
           ("old_client_id", jopt old_client_id),
           ("reason", .str "client_id unmapped")]
        let (recs, maps, unms) ← buildGo cmap am umap rest next_id
        return (recs, maps, entry :: unms)
      | some new_client_id => do
        let streamsJ ← parse_json_field (row.get "streams")
        let streams_raw := pyOrJson (streamsJ.getD .null) (.arr [])
        let elems ← pyIterJson streams_raw
        let stream_ids ← listIntsOfElems elems
        let (analytics_ids, unmapped_streams) := fanout_resolve am stream_ids
        let events_holder ← parse_json_field (row.get "events_holder")
        let lpJ ← parse_json_field (row.get "list_permissions")
        let list_permissions0 := pyOrJson (lpJ.getD .null) (.obj [])
        let creator_id ← pyAttrGet list_permissions0 "creator_id"
        let new_creator_id ←
          match creator_id with
          | .null => pure (none : Option Int)
          | j => do
            let k ← pyIntOfJson j
            pure (umap.find k)
        let list_permissions :=
          match new_creator_id with
          | some n => objSet list_permissions0 "creator_id" (.num n)
          | none => list_permissions0
        let comment := normalize_text (strip_outer_quotes (row.get "comment"))
        let name := pyOrStrD (normalize_text (strip_outer_quotes (row.get "name"))) ""
        let color := pyOrStrD (clean_value (row.get "color")) "#FFFFFF"
        let record : AlprListRecord :=
          { id := next_id
            old_id := old_id
            name := name
            comment := comment
            analytics_ids := analytics_ids
            send_internal_notifications :=
              parse_bool (row.get "send_internal_notifications") = some true
            events_holder := events_holder
            status := status
            created_at := clean_value (row.get "created_at")
            list_permissions := list_permissions
            enabled := parse_bool (row.get "enabled")
            color := color
            client_id := new_client_id
            old_client_id := pyOrInt old_client_id 0
            show_popup_for_internal_notifications := false
            unmapped_stream_ids := unmapped_streams }
        let mappedEntry : Dict :=
          [("old_id", .num old_id),
           ("new_id", .num next_id),
           ("name", .str name),
           ("old_client_id", jopt old_client_id),
           ("new_client_id", .num new_client_id),
           ("analytics_ids", .arr (analytics_ids.map .num)),
           ("unmapped_stream_ids", .arr (unmapped_streams.map .num)),
           ("status", .num status)]
        let (recs, maps, unms) ← buildGo cmap am umap rest (next_id + 1)
        return (record :: recs, mappedEntry :: maps, unms)

/-- `alpr_lists_migration.build_list_records`: sort legacy rows by legacy id
(`parse_int(id) or 0`), then run the per-row loop starting at `next_id`. -/
def build_list_records (legacy_rows : List Row) (next_id : Int)
    (client_map : IdMap) (analytics_by_stream : FanMap) (user_map : IdMap) :
    Except PyErr (List AlprListRecord × List Dict × List Dict) :=
  let rowsSorted := List.insertionSort
    (fun a b =>
      pyOrInt (parse_int (Row.get a "id")) 0 ≤ pyOrInt (parse_int (Row.get b "id")) 0)
    legacy_rows
  buildGo client_map analytics_by_stream user_map rowsSorted next_id

end Komtek.Alpr

namespace Komtek.Analytics

open Komtek

/-- `analytics_migration.to_int`: comma-stripping integer coercion with the
`int(...)` call guarded, so malformed input yields `None` instead of
raising. -/
def to_int (value : Option String) : Option Int :=
  match clean_value value with
  | none => none
  | some cleaned => pyIntOfString (removeCommas cleaned)

/-- `analytics_migration.parse_json_field`: unicode-unescape (which can
raise on a truncated escape), then two guarded `json.loads` attempts; both
failing yields `None`. -/
def parse_json_field (value : Option String) : Except PyErr (Option Json) :=
  match clean_value value with
  | none => .ok none
  | some cleaned => do
    let unquoted := (strip_outer_quotes (some cleaned)).getD ""
    let decoded ← uEscapeDecode unquoted
    match jsonLoads decoded with
    | some v => .ok (jsonToOpt v)
    | none =>
      match jsonLoads unquoted with
      | some v => .ok (jsonToOpt v)
      | none => .ok none

/-- The two fields `build_analytics_records` reads from a streams mapping
entry (the streams artifact stores integers there). -/
structure StreamEntry where
  new_id : Int
  old_parent_id : Int

/-- `analytics_migration.AnalyticsRecord`. -/
structure AnalyticsRecord where
  id : Int
  old_id : Int
  uuid : String
  type : String
  plugin_name : String
  name : String
  created_at : Option String
  status : String
  client_id : Int
  old_client_id : Int
  stream : Option String
  module : Option Json
  last_gpu_id : Option Int
  desired_server_id : Option Int
  disable_balancing : Option Json
  start_signature : Option String
  allowed_server_ids : Option Json
  restrictions : Option Json
  events_holder : Option Json
  start_at : Option String
  stream_uuid : Option String
  group_id : Int
  old_stream_id : Int
  new_stream_id : Int
  old_stream_group_id : Int
  old_creator_id : Option Json
  new_creator_id : Option Int

/-- Per-row loop of `analytics_migration.build_analytics_records` (rows
arrive sorted by legacy id; `next_id` threads through accepted rows only). -/
def buildGo (cmap : IdMap) (smap : List (Int × StreamEntry))
    (glookup : List ((String × Int) × Int)) (umap : IdMap)
    (sdetails : List (Int × Option String)) :
    List Row → Int → Except PyErr (List AnalyticsRecord × List Dict)
  | [], _ => .ok ([], [])
  | row :: rest, next_id => do
    let old_id := pyOrInt (to_int (row.get "id")) 0
    let status_text := strip_outer_quotes (row.get "status")
    if to_int status_text = some (-1) then do
      let entry : Dict :=
        [("old_id", .num old_id),
         ("name", jstr (pyOrStr (normalize_text (row.get "name")) (row.get "name"))),
         ("reason", .str "status = -1 (excluded)")]
      let (recs, unms) ← buildGo cmap smap glookup umap sdetails rest next_id
      return (recs, entry :: unms)
    else
      let plugin_name :=
        pyOrStrD (normalize_text (strip_outer_quotes (row.get "plugin_name"))) ""
      let client_id := to_int (row.get "client_id")
      let stream_id := to_int (row.get "stream_id")
      match client_id.bind fun c => (cmap.find c).map fun n => (c, n) with
      | none => do
        let entry : Dict :=
          [("old_id", .num old_id),
           ("plugin_name", .str plugin_name),
           ("old_client_id", jopt client_id),
           ("old_stream_id", jopt stream_id),
           ("reason", .str "client_id missing from clients mapping")]
        let (recs, unms) ← buildGo cmap smap glookup umap sdetails rest next_id
        return (recs, entry :: unms)
      | some (c, newc) =>
        match stream_id.bind fun s => (List.lookup s smap).map fun e => (s, e) with
        | none => do
          let entry : Dict :=
            [("old_id", .num old_id),
             ("plugin_name", .str plugin_name),
             ("old_client_id", .num c),
             ("old_stream_id", jopt stream_id),
             ("reason", .str "stream_id missing from streams mapping")]
          let (recs, unms) ← buildGo cmap smap glookup umap sdetails rest next_id
          return (recs, entry :: unms)
        | some (s, sm) =>
          let stream_group_id := sm.old_parent_id
          if stream_group_id ≠ 0 &&
              (List.lookup (plugin_name, stream_group_id) glookup).isNone then do
            let entry : Dict :=
              [("old_id", .num old_id),
               ("plugin_name", .str plugin_name),
               ("old_client_id", .num c),
               ("old_stream_id", .num s),
               ("old_stream_group_id", .num stream_group_id),
               ("reason", .str "analytics group mapping missing for stream group/plugin")]
            let (recs, unms) ← buildGo cmap smap glookup umap sdetails rest next_id
            return (recs, entry :: unms)
          else do
            let restrictions0 ← parse_json_field (row.get "restrictions")
            let (restrictions, old_creator_id, new_creator_id) ←
              remap_creator restrictions0 umap
            let module ← parse_json_field (row.get "module")
            let disable_balancing ← parse_json_field (row.get "disable_balancing")
            let allowed_server_ids ← parse_json_field (row.get "allowed_server_ids")
            let events_holder ← parse_json_field (row.get "events_holder")
            let record : AnalyticsRecord :=
              { id := next_id
                old_id := old_id
                uuid := pyOrStrD (normalize_text (strip_outer_quotes (row.get "topic"))) ""
                type := pyOrStrD (normalize_text (strip_outer_quotes (row.get "type"))) ""
                plugin_name := plugin_name
                name := pyOrStrD (normalize_text (strip_outer_quotes (row.get "name"))) ""
                created_at := clean_value (row.get "created_at")
                status := pyOrStrD status_text ""
                client_id := newc
                old_client_id := c
                stream := none
                module := module
                last_gpu_id := to_int (row.get "last_gpu_id")
                desired_server_id := to_int (row.get "desired_server_id")
                disable_balancing := disable_balancing
                start_signature := clean_value (strip_outer_quotes (row.get "start_signature"))
                allowed_server_ids := allowed_server_ids
                restrictions := restrictions
                events_holder := events_holder
                start_at := clean_value (row.get "start_at")
                stream_uuid :=
                  match List.lookup sm.new_id sdetails with
                  | some u => u
                  | none => none
                group_id :=
                  if stream_group_id = 0 then 0
                  else (List.lookup (plugin_name, stream_group_id) glookup).getD 0
                old_stream_id := s
                new_stream_id := sm.new_id
                old_stream_group_id := stream_group_id
                old_creator_id := old_creator_id
                new_creator_id := new_creator_id }
            let (recs, unms) ← buildGo cmap smap glookup umap sdetails rest (next_id + 1)
            return (record :: recs, unms)

/-- `analytics_migration.build_analytics_records`: sort the legacy rows by
legacy id (`to_int(id) or 0`), run the per-row loop from `starting_id`, then
apply the two final stable sorts. -/
def build_analytics_records (rows : List Row) (client_map : IdMap)
    (stream_map : List (Int × StreamEntry))
    (analytics_group_lookup : List ((String × Int) × Int)) (user_map : IdMap)
    (stream_details : List (Int × Option String)) (starting_id : Int) :
    Except PyErr (List AnalyticsRecord × List Dict) := do
  let rowsSorted := List.insertionSort
    (fun a b =>
      pyOrInt (to_int (Row.get a "id")) 0 ≤ pyOrInt (to_int (Row.get b "id")) 0)
    rows
  let (records, unmapped_old) ←
    buildGo client_map stream_map analytics_group_lookup user_map
      stream_details rowsSorted starting_id
  let records := List.insertionSort (fun a b => a.id ≤ b.id) records
  let unmapped_old := List.insertionSort
    (fun a b => ((dictOptInt a "old_id").getD 0) ≤ ((dictOptInt b "old_id").getD 0))
    unmapped_old
  return (records, unmapped_old)

end Komtek.Analytics

namespace Komtek

/-- Hex digit for JSON `\uXXXX` escapes. -/
def hexDigit (n : Nat) : Char :=
  if n < 10 then Char.ofNat (48 + n) else Char.ofNat (87 + n)

/-- One character of a `json.dumps` string literal with `ensure_ascii`:
short escapes for the JSON specials, `\uXXXX` for controls and non-ASCII. -/
def jsonEscapeChar (c : Char) : List Char :=
  if c = '"' then ['\\', '"']
  else if c = '\\' then ['\\', '\\']
  else if c = '\n' then ['\\', 'n']
  else if c = '\t' then ['\\', 't']
  else if c = '\r' then ['\\', 'r']
  else if c.toNat = 8 then ['\\', 'b']
  else if c.toNat = 12 then ['\\', 'f']
  else if c.toNat < 0x20 || c.toNat > 0x7e then
    ['\\', 'u', hexDigit (c.toNat / 4096 % 16), hexDigit (c.toNat / 256 % 16),
     hexDigit (c.toNat / 16 % 16), hexDigit (c.toNat % 16)]
  else [c]

mutual

/-- `json.dumps` with its default separators (`", "` and `": "`) and
`ensure_ascii=True`; codepoints above U+FFFF (which would need surrogate
pairs) do not occur in the exercised payloads. -/
def jsonDumps : Json → String
  | .null => "null"
  | .bool b => if b then "true" else "false"
  | .num n => toString n
  | .str s => ⟨'"' :: (s.data.map jsonEscapeChar).flatten ++ ['"']⟩
  | .arr l => "[" ++ jsonDumpsArr l ++ "]"
  | .obj fs =>
    ⟨Char.ofNat 0x7b :: (jsonDumpsObj fs).data ++ [Char.ofNat 0x7d]⟩

def jsonDumpsArr : List Json → String
  | [] => ""
  | [x] => jsonDumps x
  | x :: y :: rest => jsonDumps x ++ ", " ++ jsonDumpsArr (y :: rest)

def jsonDumpsObj : List (String × Json) → String
  | [] => ""
  | [(k, v)] => jsonDumps (.str k) ++ ": " ++ jsonDumps v
  | (k, v) :: p :: rest =>
    jsonDumps (.str k) ++ ": " ++ jsonDumps v ++ ", " ++ jsonDumpsObj (p :: rest)

end

/-- Effects a migration run performs on the filesystem, in order. -/
inductive FsEvent where
  | writeFile (path : String)
  | mkdir (path : String)
  | rename (src dst : String)
deriving DecidableEq

/-- Final path component (`pathlib.Path(...).name`). -/
def pathName (p : String) : String :=
  (pySplitChar '/' p).getLastD ""

/-- `pathlib.Path(...).suffix`: the final dotted extension of the last
component, empty for none or for a bare leading dot. -/
def pathSuffix (p : String) : String :=
  let nm := (pathName p).data
  let afterRev := nm.reverse.takeWhile fun c => c ≠ '.'
  if afterRev.length = nm.length then ""          -- no dot at all
  else if afterRev.length + 1 = nm.length then    -- the only dot leads
    if nm.headD ' ' = '.' then "" else ⟨'.' :: afterRev.reverse⟩
  else if afterRev.isEmpty then ""                -- trailing dot
  else ⟨'.' :: afterRev.reverse⟩

/-- Two-digit zero-padded counter (`f"{counter:02d}"`). -/
def pad2 (n : Int) : String :=
  if 0 ≤ n && n < 10 then "0" ++ toString n else toString n

/-- Replace-or-append update of an integer-keyed association list (Python
dict semantics, later assignments win in place). -/
def intMapUpdate (m : IdMap) (k v : Int) : IdMap :=
  if (List.lookup k m).isSome then
    m.map fun p => if p.1 = k then (k, v) else p
  else m ++ [(k, v)]

def strMapUpdate (m : List (Int × String)) (k : Int) (v : String) :
    List (Int × String) :=
  if (List.lookup k m).isSome then
    m.map fun p => if p.1 = k then (k, v) else p
  else m ++ [(k, v)]

/-- Entries of a mapping artifact's `mapped` list as an `IdMap`
(`{entry["old_id"]: entry["new_id"]}`); the artifact grammar (§6) stores
integers in these fields, non-conforming entries are modelled as errors. -/
def idMapEntriesGo : List Json → IdMap → Except PyErr IdMap
  | [], acc => .ok acc
  | e :: rest, acc =>
    match e with
    | .obj fs =>
      match List.lookup "old_id" fs, List.lookup "new_id" fs with
      | some (.num o), some (.num n) => idMapEntriesGo rest (intMapUpdate acc o n)
      | some _, some _ => .error (.typeError "unhashable mapping entry")
      | _, _ => .error (.keyError "old_id")
    | _ => .error (.typeError "entry is not a mapping")

/-- `load_id_map` (same body in streams/alpr/analytics/face_lists): read the
artifact, decode it, и build the old-to-new id dict from `mapped`. -/
def load_id_map (fs : FS) (path : String) : Except PyErr IdMap := do
  let text ← fs.read path
  match jsonLoads text with
  | none => .error (.jsonDecodeError "Expecting value")
  | some data => do
    let entriesJ ← pyAttrGetD data "mapped" (.arr [])
    let entries ← pyIterJson entriesJ
    idMapEntriesGo entries []

end Komtek

namespace Komtek.FaceLists

open Komtek

/-- `face_lists_migration.to_int` over a decoded value: ints (and bools, as
int subclass) pass through, `None` and placeholders clear, strings parse
with the `int(...)` guarded; `.strip()` on a non-string raises. -/
def to_int : Json → Except PyErr (Option Int)
  | .num n => .ok (some n)
  | .bool b => .ok (some (if b then 1 else 0))
  | .null => .ok none
  | .str s =>
    match clean_value (some s) with
    | none => .ok none
    | some c => .ok (pyIntOfString (removeCommas c))
  | _ => .error (.attributeError "strip")

/-- `face_lists_migration.parse_json_field` (same shape as the analytics
variant; its extra `unquoted is None` guard is dead code). -/
def parse_json_field (value : Option String) : Except PyErr (Option Json) :=
  match clean_value value with
  | none => .ok none
  | some cleaned => do
    let unquoted := (strip_outer_quotes (some cleaned)).getD ""
    let decoded ← uEscapeDecode unquoted
    match jsonLoads decoded with
    | some v => .ok (jsonToOpt v)
    | none =>
      match jsonLoads unquoted with
      | some v => .ok (jsonToOpt v)
      | none => .ok none

/-- Comprehension body of `parse_int_list`: any `int(...)` failure aborts
the whole comprehension (caught by the caller as `[]`). -/
def intListGo : List Json → Option (List Int)
  | [] => some []
  | item :: rest =>
    let s := pyStrOfJson item
    if pyStrip s ≠ "" then
      match pyIntOfString (removeCommas s) with
      | some n => (intListGo rest).map (n :: ·)
      | none => none
    else intListGo rest

/-- `face_lists_migration.parse_int_list`: decode a JSON-like integer list;
every failure (decode, iteration, int coercion) collapses to `[]`. -/
def parse_int_list (raw : Option String) : List Int :=
  match clean_value raw with
  | none => []
  | some cleaned =>
    let target := pyOrStrD (strip_outer_quotes (some cleaned)) "[]"
    match jsonLoads target with
    | none => []
    | some v =>
      match pyIterJson v with
      | .error _ => []
      | .ok items => (intListGo items).getD []

def isAsciiAlnum (c : Char) : Bool :=
  c.isDigit || ('A' ≤ c && c ≤ 'Z') || ('a' ≤ c && c ≤ 'z')

/-- `re.sub(r"[^A-Za-z0-9]+", "_", s)`: collapse each run of non-ASCII-alnum
characters to one underscore. -/
def slugGo : Bool → List Char → List Char
  | _, [] => []
  | inRun, c :: rest =>
    if isAsciiAlnum c then c :: slugGo false rest
    else if inRun then slugGo true rest
    else '_' :: slugGo true rest

/-- `face_lists_migration.slugify`. -/
def slugify (value : Option String) (fallback : String) : String :=
  let normalized := pyOrStrD (normalize_text value) fallback
  let slug : String := ⟨slugGo false normalized.data⟩
  let slug := pyStripChar '_' slug
  let slug := if slug = "" then fallback else slug
  pyLower slug

/-- Civil date from days since the Unix epoch (all-nonnegative case, which
`ms_to_timestamp` guards with `ms_int <= 0`). -/
def civilFromDays (z0 : Int) : Int × Int × Int :=
  let z := z0 + 719468
  let era := z / 146097
  let doe := z - era * 146097
  let yoe := (doe - doe / 1460 + doe / 36524 - doe / 146096) / 365
  let y := yoe + era * 400
  let doy := doe - (365 * yoe + yoe / 4 - yoe / 100)
  let mp := (5 * doy + 2) / 153
  let d := doy - (153 * mp + 2) / 5 + 1
  let m := mp + (if mp < 10 then 3 else -9)
  (y + (if m ≤ 2 then 1 else 0), m, d)

def padWidth (w : Nat) (n : Int) : String :=
  let s := toString n
  ⟨List.replicate (w - s.length) '0' ++ s.data⟩

/-- `face_lists_migration.ms_to_timestamp`: positive epoch milliseconds to
`"%Y-%m-%d %H:%M:%S.%f"[:-3]` in UTC.  The float division CPython performs
(`ms_int / 1000`) is modelled by exact integer arithmetic. -/
def ms_to_timestamp (ms_value : Json) : Option String :=
  match ms_value with
  | .null => none
  | v =>
    match pyIntOfString (removeCommas (pyStrOfJson v)) with
    | none => none
    | some ms =>
      if ms ≤ 0 then none
      else
        let secs := ms / 1000
        let milli := ms % 1000
        let days := secs / 86400
        let sod := secs % 86400
        let (y, m, d) := civilFromDays days
        some (padWidth 4 y ++ "-" ++ padWidth 2 m ++ "-" ++ padWidth 2 d ++
          " " ++ padWidth 2 (sod / 3600) ++ ":" ++ padWidth 2 (sod / 60 % 60) ++
          ":" ++ padWidth 2 (sod % 60) ++ "." ++ padWidth 3 milli)

/-- `face_lists_migration.parse_pipe_table`. -/
def parse_pipe_table (fs : FS) (path : String) : Except PyErr (List Row) := do
  let text ← fs.read path
  let lines := pySplitlines text
  if lines.length < 2 then return []
  else return tableRows lines

/-- `face_lists_migration.parse_existing_dataset`: raises `ValueError` on a
dataset with fewer than two lines; rows whose id fails to parse are skipped
and `max_id` floors at 0. -/
def parse_existing_dataset (fs : FS) (path : String) :
    Except PyErr (List String × List String × List Row × Int) := do
  let text ← fs.read path
  let lines := pySplitlines text
  if lines.length < 2 then
    .error (.valueError ("Existing dataset is missing header rows: " ++ path))
  else
    let header_lines := lines.take 2
    let data_lines := (lines.drop 2).filter fun l => pyStrip l ≠ ""
    let headers := lineCells (lines.headD "")
    let step := fun (acc : List Row × Int) (line : String) =>
      let row := dictOfPairs (List.zip headers ((lineCells line).map some))
      match row.get "id" with
      | some idCell =>
        match pyIntOfString (removeCommas idCell) with
        | some n => (acc.1 ++ [row], max acc.2 n)
        | none => acc
      | none => acc
    let (rows, maxid) := data_lines.foldl step ([], 0)
    return (header_lines, data_lines, rows, maxid)

/-- `defaultdict` access materializes the key even without an append. -/
def fanTouch (m : FanMap) (k : Int) : FanMap :=
  if (List.lookup k m).isSome then m else m ++ [(k, [])]

/-- Loop of `face_lists_migration.load_face_analytics_by_stream` over the
`mapped` entries: keep `plugin_name == "face"`, append each unseen new id
under its old stream id (the artifact stores integer ids). -/
def faceFanGo : List Json → FanMap → Except PyErr FanMap
  | [], acc => .ok acc
  | entry :: rest, acc => do
    let pn ← pyAttrGet entry "plugin_name"
    if !pyEqStr pn "face" then faceFanGo rest acc
    else do
      let osid ← pyAttrGet entry "old_stream_id"
      let nid ← pyAttrGet entry "new_id"
      if pyIsNone osid || pyIsNone nid then faceFanGo rest acc
      else
        match osid, nid with
        | .num k, .num n =>
          let cur := (List.lookup k acc).getD []
          if n ∈ cur then faceFanGo rest (fanTouch acc k)
          else faceFanGo rest (fanAppend acc k n)
        | _, _ => .error (.typeError "unhashable stream id")

/-- `face_lists_migration.load_face_analytics_by_stream`. -/
def load_face_analytics_by_stream (fs : FS) (path : String) :
    Except PyErr FanMap := do
  let text ← fs.read path
  match jsonLoads text with
  | none => .error (.jsonDecodeError "Expecting value")
  | some data => do
    let entriesJ ← pyAttrGetD data "mapped" (.arr [])
    let entries ← pyIterJson entriesJ
    let m ← faceFanGo entries []
    return m.map fun p => (p.1, List.insertionSort (· ≤ ·) p.2)

/-- `face_lists_migration.FaceListRecord`. -/
structure FaceListRecord where
  id : Int
  old_id : Int
  name : String
  comment : Option String
  min_confidence : Int
  send_internal_notifications : Bool
  events_holder : Json
  status : Int
  created_at : Option String
  client_id : Int
  old_client_id : Int
  color : String
  time_attendance : Option Json
  list_permissions : Json
  analytics_ids : List Int
  show_popup_for_internal_notifications : Bool

/-- `face_lists_migration.FaceListItemRecord`. -/
structure FaceListItemRecord where
  id : Int
  old_id : Int
  name : String
  comment : Option String
  status : Int
  created_at : Option String
  created_by : Int
  old_created_by : Option Int
  closed_at : Option String
  list_id : Int
  old_list_id : Int
  expiration_settings : Json
  client_id : Int
  old_client_id : Int
  expiration_settings_enabled : Bool
  expiration_settings_action : String
  expiration_settings_list_id : Option Int
  expiration_settings_date : Option String
  expiration_settings_events_holder : Json

/-- `face_lists_migration.FaceListItemImageRecord`. -/
structure FaceListItemImageRecord where
  id : Int
  old_id : Int
  list_item_id : Int
  old_list_item_id : Int
  path : String
  encoding : Option String
  points : Option String


/-- The `list_permissions.creator_id` remapping block of
`face_lists_migration.build_face_lists`: on a dict payload carrying
`creator_id`, remap it via the users map, falling back to admin id 1;
non-dict payloads pass through. -/
def remap_permissions (permJ : Option Json) (user_map : IdMap) :
    Except PyErr (Option Json) := do
  match permJ with
  | some (.obj pfs) =>
    if (List.lookup "creator_id" pfs).isSome then do
      let cr ← to_int (.str (pyStrOfJson ((List.lookup "creator_id" pfs).getD .null)))
      match cr with
      | some c =>
        match user_map.find c with
        | some n => pure (some (.obj (assocUpdate pfs "creator_id" (.num n))))
        | none => pure (some (.obj (assocUpdate pfs "creator_id" (.num 1))))
      | none => pure (some (.obj pfs))
    else pure (some (.obj pfs))
  | other => pure other

/-- Per-row loop of `face_lists_migration.build_face_lists`: rows are
processed in input order (no sort); ids thread from `existing_max_id + 1`
through accepted rows; rows with an unparseable id are silently skipped. -/
def buildListsGo (cmap : IdMap) (fam : FanMap) (umap : IdMap) :
    List Row → Int → Except PyErr (List FaceListRecord × List Dict)
  | [], _ => .ok ([], [])
  | row :: rest, next_id => do
    let old_id? ← to_int (jstr (row.get "id"))
    match old_id? with
    | none => buildListsGo cmap fam umap rest next_id
    | some old_id => do
      let status0 ← to_int (jstr (row.get "status"))
      let status := pyOrInt status0 0
      if status = -1 then do
        let entry : Dict :=
          [("old_id", .num old_id), ("reason", .str "status = -1")]
        let (recs, unms) ← buildListsGo cmap fam umap rest next_id
        return (recs, entry :: unms)
      else do
        let old_client_id? ← to_int (jstr (row.get "client_id"))
        match old_client_id?.bind fun c => (cmap.find c).map fun n => (c, n) with
        | none => do
          let entry : Dict :=
            [("old_id", .num old_id),
             ("name", jstr (normalize_text (row.get "name"))),
             ("reason", .str "missing client mapping"),
             ("old_client_id", jopt old_client_id?)]
          let (recs, unms) ← buildListsGo cmap fam umap rest next_id
          return (recs, entry :: unms)
        | some (old_client_id, new_client_id) => do
          let name := pyOrStrD (normalize_text (row.get "name"))
            ("Face List " ++ toString old_id)
          let comment := normalize_text (strip_outer_quotes (row.get "comment"))
          let minc ← to_int (jstr (row.get "min_confidence"))
          let min_confidence := pyOrInt minc 80
          let send_notifications :=
            pyLower (pyOrStrD (clean_value (row.get "send_internal_notifications")) "false")
          let send_internal_notifications := send_notifications = "true"
          let ehJ ← parse_json_field (row.get "events_holder")
          let events_holder := pyOrJson (ehJ.getD .null)
            (.obj [("events", .arr []), ("notify_enabled", .bool false)])
          let created_at := clean_value (row.get "created_at")
          let color := pyOrStrD (normalize_text (row.get "color")) "#FFFFFF"
          let streams := parse_int_list (row.get "streams")
          let analytics_ids := pySortedSet
            (streams.foldl (fun acc sid => acc ++ (List.lookup sid fam).getD []) [])
          let taJ ← parse_json_field (row.get "time_attendance")
          let time_attendance : Option Json :=
            match taJ with
            | some (.obj tfs) =>
              let entrance_streams := parse_int_list
                (some (jsonDumps ((List.lookup "entrance_streams" tfs).getD (.arr []))))
              let exit_streams := parse_int_list
                (some (jsonDumps ((List.lookup "exit_streams" tfs).getD (.arr []))))
              let entrance_analytics := pySortedSet
                (entrance_streams.foldl
                  (fun acc sid => acc ++ (List.lookup sid fam).getD []) [])
              let exit_analytics := pySortedSet
                (exit_streams.foldl
                  (fun acc sid => acc ++ (List.lookup sid fam).getD []) [])
              some (.obj
                [("enabled", .bool (pyTruthy ((List.lookup "enabled" tfs).getD (.bool false)))),
                 ("entrance_analytics_ids", .arr (entrance_analytics.map .num)),
                 ("exit_analytics_ids", .arr (exit_analytics.map .num))])
            | _ => none
          let permJ ← parse_json_field (row.get "list_permissions")
          let permissions1 ← remap_permissions permJ umap
          let list_permissions := match permissions1 with
            | none => Json.obj
                [("default_permissions", .obj []), ("role_permissions", .obj []),
                 ("user_permissions", .obj [])]
            | some p => p
          let np ← pyAttrGet events_holder "notify_enabled"
          let show_popup := pyTruthy np
          let record : FaceListRecord :=
            { id := next_id
              old_id := old_id
              name := name
              comment := comment
              min_confidence := min_confidence
              send_internal_notifications := send_internal_notifications
              events_holder := events_holder
              status := status
              created_at := created_at
              client_id := new_client_id
              old_client_id := old_client_id
              color := color
              time_attendance := time_attendance
              list_permissions := list_permissions
              analytics_ids := analytics_ids
              show_popup_for_internal_notifications := show_popup }
          let (recs, unms) ← buildListsGo cmap fam umap rest (next_id + 1)
          return (record :: recs, unms)

/-- `face_lists_migration.build_face_lists` (the final sort over already
ascending ids included; `unmapped_new` is always empty). -/
def build_face_lists (rows : List Row) (client_map : IdMap)
    (face_analytics_map : FanMap) (existing_max_id : Int) (user_map : IdMap) :
    Except PyErr (List FaceListRecord × List Dict × List Dict) := do
  let (records, unmapped_old) ←
    buildListsGo client_map face_analytics_map user_map rows (existing_max_id + 1)
  let records := List.insertionSort (fun a b => a.id ≤ b.id) records
  return (records, unmapped_old, [])

/-- Per-row loop of `face_lists_migration.build_face_list_items`. -/
def buildItemsGo (list_id_map cmap umap : IdMap) :
    List Row → Int → Except PyErr (List FaceListItemRecord × List Dict)
  | [], _ => .ok ([], [])
  | row :: rest, next_id => do
    let old_id? ← to_int (jstr (row.get "id"))
    match old_id? with
    | none => buildItemsGo list_id_map cmap umap rest next_id
    | some old_id => do
      let status0 ← to_int (jstr (row.get "status"))
      let status := pyOrInt status0 0
      if status = -1 then do
        let entry : Dict :=
          [("old_id", .num old_id), ("reason", .str "status = -1")]
        let (recs, unms) ← buildItemsGo list_id_map cmap umap rest next_id
        return (recs, entry :: unms)
      else do
        let old_list_id? ← to_int (jstr (row.get "list_id"))
        match old_list_id?.bind fun l => (list_id_map.find l).map fun n => (l, n) with
        | none => do
          let entry : Dict :=
            [("old_id", .num old_id),
             ("reason", .str "missing list mapping"),
             ("old_list_id", jopt old_list_id?)]
          let (recs, unms) ← buildItemsGo list_id_map cmap umap rest next_id
          return (recs, entry :: unms)
        | some (old_list_id, new_list_id) => do
          let old_client_id? ← to_int (jstr (row.get "client_id"))
          match old_client_id?.bind fun c => (cmap.find c).map fun n => (c, n) with
          | none => do
            let entry : Dict :=
              [("old_id", .num old_id),
               ("reason", .str "missing client mapping"),
               ("old_client_id", jopt old_client_id?)]
            let (recs, unms) ← buildItemsGo list_id_map cmap umap rest next_id
            return (recs, entry :: unms)
          | some (old_client_id, new_client_id) => do
            let name := pyOrStrD (normalize_text (row.get "name"))
              ("Face Item " ++ toString old_id)
            let comment := normalize_text (strip_outer_quotes (row.get "comment"))
            let created_at := clean_value (row.get "created_at")
            let closed_at := clean_value (row.get "closed_at")
            let old_created_by ← to_int (jstr (row.get "created_by"))
            let created_by := match old_created_by with
              | some k => (umap.find k).getD 1
              | none => 1
            let erJ ← parse_json_field (row.get "expiration_settings")
            let expiration_raw := pyOrJson (erJ.getD .null) (.obj [])
            let en ← pyAttrGetD expiration_raw "enabled" (.bool false)
            let expiration_enabled := pyTruthy en
            let act ← pyAttrGetD expiration_raw "action" (.str "none")
            let expiration_action :=
              pyOrStrD (normalize_text (some (pyStrOfJson act))) "none"
            let lidJ ← pyAttrGet expiration_raw "list_id"
            let expiration_list_old ← to_int lidJ
            let expiration_list_new := match expiration_list_old with
              | some n => if n ≠ 0 then list_id_map.find n else none
              | none => none
            let expJ ← pyAttrGet expiration_raw "expires_at"
            let expiration_date := ms_to_timestamp expJ
            let eehJ ← pyAttrGet expiration_raw "events_holder"
            let expiration_events_holder := pyOrJson eehJ
              (.obj [("events", .arr []), ("notify_enabled", .bool false)])
            let expD ← pyAttrGetD expiration_raw "expires_at" (.num 0)
            let payload0 := Json.obj
              [("action", .str expiration_action),
               ("enabled", .bool expiration_enabled),
               ("events_holder", expiration_events_holder),
               ("expires_at", pyOrJson expD (.num 0))]
            let expiration_settings := match expiration_list_new with
              | some n => objSet payload0 "list_id" (.num n)
              | none => payload0
            let record : FaceListItemRecord :=
              { id := next_id
                old_id := old_id
                name := name
                comment := comment
                status := status
                created_at := created_at
                created_by := created_by
                old_created_by := old_created_by
                closed_at := closed_at
                list_id := new_list_id
                old_list_id := old_list_id
                expiration_settings := expiration_settings
                client_id := new_client_id
                old_client_id := old_client_id
                expiration_settings_enabled := expiration_enabled
                expiration_settings_action := expiration_action
                expiration_settings_list_id := expiration_list_new
                expiration_settings_date := expiration_date
                expiration_settings_events_holder := expiration_events_holder }
            let (recs, unms) ← buildItemsGo list_id_map cmap umap rest (next_id + 1)
            return (record :: recs, unms)

/-- `face_lists_migration.build_face_list_items`. -/
def build_face_list_items (rows : List Row) (list_id_map client_map user_map : IdMap)
    (existing_max_id : Int) :
    Except PyErr (List FaceListItemRecord × List Dict × List Dict) := do
  let (records, unmapped_old) ←
    buildItemsGo list_id_map client_map user_map rows (existing_max_id + 1)
  let records := List.insertionSort (fun a b => a.id ≤ b.id) records
  return (records, unmapped_old, [])

/-- Per-row loop of `face_lists_migration.build_face_list_item_images`.
The directory creations and file renames the source performs inline are
returned as an ordered effect list. -/
def buildImagesGo (item_id_map item_to_list : IdMap)
    (file_index : List (String × String)) (folder_map : List (Int × String))
    (slug_map : List (Int × String)) :
    List Row → Int → IdMap →
    Except PyErr (List FaceListItemImageRecord × List Dict × List FsEvent)
  | [], _, _ => .ok ([], [], [])
  | row :: rest, next_id, counters => do
    let old_id? ← to_int (jstr (row.get "id"))
    match old_id? with
    | none =>
      buildImagesGo item_id_map item_to_list file_index folder_map slug_map
        rest next_id counters
    | some old_id => do
      let old_item? ← to_int (jstr (row.get "list_item_id"))
      match old_item?.bind fun i => (item_id_map.find i).map fun n => (i, n) with
      | none => do
        let entry : Dict :=
          [("old_id", .num old_id),
           ("reason", .str "missing list_item mapping"),
           ("old_list_item_id", jopt old_item?)]
        let (recs, unms, evs) ← buildImagesGo item_id_map item_to_list
          file_index folder_map slug_map rest next_id counters
        return (recs, entry :: unms, evs)
      | some (old_item, new_item_id) =>
        let raw_path := strip_outer_quotes (row.get "path")
        let base_name := pathName (raw_path.getD "")
        match List.lookup base_name file_index with
        | none => do
          let entry : Dict :=
            [("old_id", .num old_id),
             ("reason", .str "source image not found"),
             ("old_path", jstr raw_path),
             ("old_list_item_id", .num old_item)]
          let (recs, unms, evs) ← buildImagesGo item_id_map item_to_list
            file_index folder_map slug_map rest next_id counters
          return (recs, entry :: unms, evs)
        | some source_path =>
          match (item_to_list.find old_item).bind
              fun l => (List.lookup l folder_map).map fun f => (l, f) with
          | none => do
            let entry : Dict :=
              [("old_id", .num old_id),
               ("reason", .str "list folder missing for item"),
               ("old_list_item_id", .num old_item),
               ("new_list_id", jopt (item_to_list.find old_item))]
            let (recs, unms, evs) ← buildImagesGo item_id_map item_to_list
              file_index folder_map slug_map rest next_id counters
            return (recs, entry :: unms, evs)
          | some (_, list_folder) => do
            let counter := (List.lookup old_item counters).getD 0 + 1
            let counters := intMapUpdate counters old_item counter
            let slug := (List.lookup old_item slug_map).getD
              ("item_" ++ toString old_item)
            let extension :=
              let suf := pathSuffix source_path
              if suf = "" then ".jpg" else suf
            let new_filename :=
              toString new_item_id ++ "_" ++ slug ++ "_" ++ pad2 counter ++ extension
            let destination_path := list_folder ++ "/" ++ new_filename
            let record : FaceListItemImageRecord :=
              { id := next_id
                old_id := old_id
                list_item_id := new_item_id
                old_list_item_id := old_item
                path := destination_path
                encoding := clean_value (row.get "encoding")
                points := clean_value (row.get "points") }
            let (recs, unms, evs) ← buildImagesGo item_id_map item_to_list
              file_index folder_map slug_map rest (next_id + 1) counters
            return (record :: recs, unms,
              .mkdir list_folder :: .rename source_path destination_path :: evs)

/-- `face_lists_migration.build_face_list_item_images`. -/
def build_face_list_item_images (rows : List Row)
    (list_item_id_map item_to_list_map : IdMap)
    (file_index : List (String × String)) (list_folder_map : List (Int × String))
    (item_slug_map : List (Int × String)) (existing_max_id : Int) :
    Except PyErr (List FaceListItemImageRecord × List Dict × List FsEvent) := do
  let (records, unmapped_old, events) ←
    buildImagesGo list_item_id_map item_to_list_map file_index list_folder_map
      item_slug_map rows (existing_max_id + 1) []
  let records := List.insertionSort (fun a b => a.id ≤ b.id) records
  return (records, unmapped_old, events)

def OLD_FACE_LISTS_PATH : String := "old_dataset/_face_lists__202512301049.txt"
def OLD_FACE_LIST_ITEMS_PATH : String :=
  "old_dataset/_face_list_items__202512301049.txt"
def OLD_FACE_LIST_ITEMS_IMAGES_PATH : String :=
  "old_dataset/_face_list_items_images__202512301049.txt"
def NEW_FACE_LISTS_PATH : String := "new_dataset/face_lists_202512301039.txt"
def NEW_FACE_LIST_ITEMS_PATH : String :=
  "new_dataset/face_list_items_202512301039.txt"
def NEW_FACE_LIST_ITEMS_IMAGES_PATH : String :=
  "new_dataset/face_list_items_images_202512301039.txt"
def CLIENT_MAP_PATH : String := "maps/clients.json"
def USER_MAP_PATH : String := "maps/users.json"
def ANALYTICS_MAP_PATH : String := "maps/analytics.json"
def SQL_FACE_LISTS_PATH : String := "sql/face_lists_inserts.sql"
def SQL_FACE_LIST_ITEMS_PATH : String := "sql/face_list_items_inserts.sql"
def SQL_FACE_LIST_ITEMS_IMAGES_PATH : String :=
  "sql/face_list_items_images_inserts.sql"
def MAP_FACE_LISTS_PATH : String := "maps/face_lists.json"
def MAP_FACE_LIST_ITEMS_PATH : String := "maps/face_list_items.json"
def MAP_FACE_LIST_ITEMS_IMAGES_PATH : String :=
  "maps/face_list_items_images.json"

/-- `face_lists_migration.main`, modelled as the ordered list of filesystem
effects it performs together with its outcome.  Reads and record building
follow the source's statement order; each writer (whose serialized content
is an I/O-adapter concern out of the engine's scope) is recorded as a
`writeFile` event for its artifact path.  The computations feeding the
writers cannot raise, so dropping their content loses no failure path. -/
def main (fs : FS) : List FsEvent × Except PyErr Unit :=
  match load_id_map fs CLIENT_MAP_PATH with
  | .error e => ([], .error e)
  | .ok client_map =>
  match load_id_map fs USER_MAP_PATH with
  | .error e => ([], .error e)
  | .ok user_map =>
  match load_face_analytics_by_stream fs ANALYTICS_MAP_PATH with
  | .error e => ([], .error e)
  | .ok face_analytics_map =>
  let file_index := fs.imageIndex
  match parse_pipe_table fs OLD_FACE_LISTS_PATH with
  | .error e => ([], .error e)
  | .ok list_rows =>
  match parse_existing_dataset fs NEW_FACE_LISTS_PATH with
  | .error e => ([], .error e)
  | .ok (_, _, _, list_max_id) =>
  match build_face_lists list_rows client_map face_analytics_map list_max_id
      user_map with
  | .error e => ([], .error e)
  | .ok (list_records, _, _) =>
  let list_id_map := list_records.foldl
    (fun m r => intMapUpdate m r.old_id r.id) []
  let list_folder_map := list_records.foldl
    (fun m r => strMapUpdate m r.id
      ("face_lists/" ++ toString r.id ++ "_" ++
        slugify (some r.name) ("list_" ++ toString r.id))) []
  let ev1 : List FsEvent :=
    [.writeFile NEW_FACE_LISTS_PATH, .writeFile SQL_FACE_LISTS_PATH,
     .writeFile MAP_FACE_LISTS_PATH]
  match parse_pipe_table fs OLD_FACE_LIST_ITEMS_PATH with
  | .error e => (ev1, .error e)
  | .ok item_rows =>
  match parse_existing_dataset fs NEW_FACE_LIST_ITEMS_PATH with
  | .error e => (ev1, .error e)
  | .ok (_, _, _, item_max_id) =>
  match build_face_list_items item_rows list_id_map client_map user_map
      item_max_id with
  | .error e => (ev1, .error e)
  | .ok (item_records, _, _) =>
  let item_id_map := item_records.foldl
    (fun m r => intMapUpdate m r.old_id r.id) []
  let item_slug_map := item_records.foldl
    (fun m r => strMapUpdate m r.old_id
      (slugify (some r.name) ("item_" ++ toString r.id))) []
  let item_to_list_map := item_records.foldl
    (fun m r => intMapUpdate m r.old_id r.list_id) []
  let ev2 := ev1 ++
    [.writeFile NEW_FACE_LIST_ITEMS_PATH, .writeFile SQL_FACE_LIST_ITEMS_PATH,
     .writeFile MAP_FACE_LIST_ITEMS_PATH]
  match parse_pipe_table fs OLD_FACE_LIST_ITEMS_IMAGES_PATH with
  | .error e => (ev2, .error e)
  | .ok image_rows =>
  match parse_existing_dataset fs NEW_FACE_LIST_ITEMS_IMAGES_PATH with
  | .error e => (ev2, .error e)
  | .ok (_, _, _, image_max_id) =>
  match build_face_list_item_images image_rows item_id_map item_to_list_map
      file_index list_folder_map item_slug_map image_max_id with
  | .error e => (ev2, .error e)
  | .ok (_, _, image_events) =>
  (ev2 ++ image_events ++
    [.writeFile NEW_FACE_LIST_ITEMS_IMAGES_PATH,
     .writeFile SQL_FACE_LIST_ITEMS_IMAGES_PATH,
     .writeFile MAP_FACE_LIST_ITEMS_IMAGES_PATH], .ok ())

end Komtek.FaceLists

namespace Komtek

namespace Alpr

/-- Whether a legacy stream id resolves through the fan-out map: present
with a non-empty id list (the truthiness test the loop performs). -/
def fan_resolves (m : FanMap) (s : Int) : Bool :=
  match List.lookup s m with
  | some ids => !ids.isEmpty
  | none => false

end Alpr


/-- Whether a stream-group row's client resolves through the clients map
(the membership test `client_id not in client_map` negates). -/
def sgClientMapped (cmap : IdMap) (r : StreamGroups.SGRow) : Bool :=
  match r.client_id with
  | some c => (IdMap.find cmap c).isSome
  | none => false

/-- The analytics ids a single legacy stream id contributes through the
fan-out map (empty when it does not resolve). -/
def fanResolvedIds (m : FanMap) (s : Int) : List Int :=
  match List.lookup s m with
  | some ids => if !ids.isEmpty then ids else []
  | none => []

/-- §8 scenario: a fan-out row `streams: [10, 11]`. -/
def alprFanRow : Row :=
  [("id", some "1"), ("client_id", some "3"), ("streams", some "[10, 11]")]

/-- §8 scenario: legacy row `{id: "5", status: "-1", name: "Foo"}`. -/
def excludedRow : Row :=
  [("id", some "5"), ("status", some "-1"), ("name", some "Foo")]

/-- The same excluded row with a mapped client, for the streams builder. -/
def excludedRowWithClient : Row :=
  [("id", some "5"), ("status", some "-1"), ("name", some "Foo"),
   ("client_id", some "3")]

/-- A streams row whose name consists of one character with no ASCII
decomposition (the section sign), normalizing to the empty string. -/
def blankNameRow : Row :=
  [("id", some "1"), ("client_id", some "3"), ("name", some "§")]

/-- A client-mapped stream-group row whose name cell was a placeholder. -/
def sgNamelessRow : StreamGroups.SGRow :=
  { id := some 1, parent_id := none, client_id := some 3, name := none }

/-- A well-formed stream-group row. -/
def sgNamedRow : StreamGroups.SGRow :=
  { id := some 1, parent_id := none, client_id := some 3, name := some "Foo" }

/-- Face-list legacy rows with descending ids, both client-mapped. -/
def faceRowTwo : Row := [("id", some "2"), ("client_id", some "3")]

def faceRowOne : Row := [("id", some "1"), ("client_id", some "3")]

/-- Analytics legacy rows with out-of-order ids. -/
def analyticsRowSeven : Row :=
  [("id", some "7"), ("status", some "0"), ("client_id", some "3"),
   ("stream_id", some "10")]

def analyticsRowThree : Row :=
  [("id", some "3"), ("status", some "0"), ("client_id", some "3"),
   ("stream_id", some "10")]

/-- A filesystem with well-formed face-lists inputs whose face-list-items
dataset is missing its second header line. -/
def fsPartial : FS :=
  { files :=
      [("maps/clients.json", "\x7b\"mapped\": []\x7d"),
       ("maps/users.json", "\x7b\"mapped\": []\x7d"),
       ("maps/analytics.json", "\x7b\"mapped\": []\x7d"),
       ("old_dataset/_face_lists__202512301049.txt", "|id|\n|--|"),
       ("new_dataset/face_lists_202512301039.txt", "|id|\n|--|"),
       ("old_dataset/_face_list_items__202512301049.txt", "|id|\n|--|"),
       ("new_dataset/face_list_items_202512301039.txt", "|id|")],
    imageIndex := [] }


/-- Like `fsPartial`, but the face-list-items dataset file is missing
entirely. -/
def fsPartialMissing : FS :=
  { files :=
      [("maps/clients.json", "\x7b\"mapped\": []\x7d"),
       ("maps/users.json", "\x7b\"mapped\": []\x7d"),
       ("maps/analytics.json", "\x7b\"mapped\": []\x7d"),
       ("old_dataset/_face_lists__202512301049.txt", "|id|\n|--|"),
       ("new_dataset/face_lists_202512301039.txt", "|id|\n|--|"),
       ("old_dataset/_face_list_items__202512301049.txt", "|id|\n|--|")],
    imageIndex := [] }

/-- A filesystem whose table file has a single (header-only) line. -/
def fsOneLine : FS := { files := [("p", "|id|")], imageIndex := [] }

/-- The analytics mapping artifact of the C4 scenario, decoded. -/
def alprMappingData : Json :=
  .obj [("mapped", .arr
    [.obj [("plugin_name", .str "alpr"), ("old_stream_id", .num 10),
           ("new_id", .num 55)]])]

end Komtek

namespace Komtek

/-- Claim C1, counterexample: the face-lists builder allocates new ids in
input row order, not in ascending legacy-identifier order — with legacy rows
`[id 2, id 1]` (both client-mapped, empty target dataset) legacy 2 receives
new id 1 and legacy 1 receives new id 2, so the legacy ids paired with the
ascending allocation are not ascending. -/
theorem c1_allocation_order_cex :
    ∃ recs unms unmn,
      FaceLists.build_face_lists [faceRowTwo, faceRowOne] [(3, 103)] [] 0 [] =
        .ok (recs, unms, unmn) ∧
      recs.map (fun r => r.old_id) = [2, 1] ∧
      recs.map (fun r => r.id) = [1, 2] ∧
      ¬ List.Sorted (· ≤ ·) (recs.map fun r => r.old_id) := by
  refine ⟨_, _, _, rfl, rfl, rfl, ?_⟩
  decide

/-- Claim C2, counterexample: a single unresolvable row aborts the
stream-groups run — a client-mapped row whose name cell is a placeholder
makes `build_records` raise `ValueError` instead of diverting the row. -/
theorem c2_row_failure_aborts_cex :
    StreamGroups.build_records [sgNamelessRow] [(3, 103)] =
      .error (.valueError "Stream group name missing for id=1") := rfl

/-- Claim C3, counterexample: a structural read failure does leave a partial
artifact set — on a filesystem whose face-list-items dataset lacks its
second header line, `face_lists_migration.main` fails with `ValueError`
after the three face-lists artifacts were already written (3 of the run's 9
artifacts on disk). -/
theorem c3_partial_artifacts_cex :
    FaceLists.main fsPartial =
      ([.writeFile FaceLists.NEW_FACE_LISTS_PATH,
        .writeFile FaceLists.SQL_FACE_LISTS_PATH,
        .writeFile FaceLists.MAP_FACE_LISTS_PATH],
       .error (.valueError
         "Existing dataset is missing header rows: new_dataset/face_list_items_202512301039.txt")) := rfl

/-- Claim C5, counterexample: the streams builder tags excluded rows with
the reason string `"status = -1 (excluded)"`, not `"status -1"`. -/
theorem c5_reason_string_cex :
    Streams.build_records [excludedRowWithClient] [] [] [] =
      .ok ([],
        [[("old_id", .num 5), ("name", .str "Foo"), ("old_client_id", .num 3),
          ("old_parent_id", .null),
          ("reason", .str "status = -1 (excluded)")]]) ∧
    "status = -1 (excluded)" ≠ "status -1" := by
  exact ⟨rfl, by decide⟩

/-- Claim C6, counterexample: the normalizer is not idempotent — the section
sign normalizes to the empty string, and normalizing the empty string yields
an absent value instead. -/
theorem c6_not_idempotent_cex :
    normalize_text (normalize_text (some "§")) ≠ normalize_text (some "§") := by
  decide

/-- Claim C7, counterexample: on an input with fewer than two header lines
the streams table reader succeeds with an empty row list instead of failing
with a malformed-table condition. -/
theorem c7_short_table_no_failure_cex :
    (pySplitlines "|id|").length < 2 ∧
    Streams.parse_pipe_table fsOneLine "p" = .ok [] := ⟨by decide, rfl⟩

/-- Claim C8, counterexample: the streams `to_int` raises `ValueError` to
the caller on a malformed (non-absent) input instead of yielding no
value. -/
theorem c8_to_int_raises_cex :
    Streams.to_int (some "abc") =
      .error (.valueError "invalid literal for int with base 10") := rfl

/-- Claim C9, counterexample: the streams `parse_json_field` raises
`JSONDecodeError` to the caller when both of its parse attempts fail,
instead of yielding no value. -/
theorem c9_parse_json_raises_cex :
    Streams.parse_json_field (some "abc") =
      .error (.jsonDecodeError "Expecting value") := rfl

end Komtek

namespace Komtek

/-- `Except.ok a >>= f` reduces to `f a`. -/
theorem except_ok_bind {ε α β : Type} (a : α) (f : α → Except ε β) :
    (Except.ok a >>= f) = f a := rfl

/-- `pySortByOptInt` succeeds and preserves length when every key is
present. -/
theorem pySortOk {α : Type} (key : α → Option Int) (l : List α)
    (h : ∀ a ∈ l, (key a).isSome) :
    ∃ l', pySortByOptInt key l = .ok l' ∧ l'.length = l.length := by
  unfold pySortByOptInt
  split
  · exact ⟨l, rfl, rfl⟩
  · rw [if_pos (List.all_eq_true.mpr h)]
    exact ⟨_, rfl, List.length_insertionSort _ _⟩

/-- Per-row loop of the stream-groups builder: when every client-mapped row
has a normalizable name and every row has an id, the loop succeeds, accounts
for every row, and leaves every sort key present. -/
theorem sg_buildGo_spec (cmap : IdMap) :
    ∀ rows : List StreamGroups.SGRow,
      (∀ r ∈ rows, sgClientMapped cmap r = true → normalize_text r.name ≠ none) →
      (∀ r ∈ rows, r.id.isSome) →
      ∃ recs unms, StreamGroups.buildGo cmap rows = .ok (recs, unms) ∧
        recs.length + unms.length = rows.length ∧
        (∀ rec ∈ recs, rec.id.isSome) ∧
        (∀ u ∈ unms, (dictOptInt u "old_id").isSome) := by
  intro rows
  induction rows with
  | nil =>
    intro _ _
    exact ⟨[], [], rfl, rfl, by simp, by simp⟩
  | cons r rest ih =>
    intro hname hid
    obtain ⟨recs, unms, hgo, hlen, hrecs, hunms⟩ :=
      ih (fun x hx hc => hname x (List.mem_cons_of_mem _ hx) hc)
         (fun x hx => hid x (List.mem_cons_of_mem _ hx))
    cases hin : sgClientMapped cmap r with
    | false =>
      refine ⟨recs,
        [("old_id", jopt r.id),
         ("name", jstr (pyOrStr (normalize_text r.name) r.name)),
         ("old_client_id", jopt r.client_id),
         ("parent_id", jopt r.parent_id),
         ("reason", .str "client_id missing from clients mapping")] :: unms,
        ?_, ?_, hrecs, ?_⟩
      · simp only [StreamGroups.buildGo]
        rw [show (match r.client_id with
            | some c => (IdMap.find cmap c).isSome
            | none => false) = sgClientMapped cmap r from rfl, hin]
        simp only [Bool.not_false, if_true, hgo, except_ok_bind]
        rfl
      · simp only [List.length_cons]; omega
      · intro u hu
        cases hu with
        | head =>
          have hs := hid r (List.mem_cons_self _ _)
          simp only [dictOptInt, List.lookup]
          cases hr : r.id with
          | none => rw [hr] at hs; cases hs
          | some n => simp [jopt, hr]
        | tail _ hu => exact hunms u hu
    | true =>
      have hnm := hname r (List.mem_cons_self _ _) hin
      cases hn : normalize_text r.name with
      | none => exact absurd hn hnm
      | some nm =>
        refine ⟨({ id := r.id, old_id := r.id, parent_id := r.parent_id,
                   old_parent_id := r.parent_id,
                   client_id := (IdMap.find cmap ((r.client_id).getD 0)).getD 0,
                   old_client_id := (r.client_id).getD 0,
                   name := nm } : StreamGroups.SGRecord) :: recs, unms, ?_, ?_, ?_, hunms⟩
        · simp only [StreamGroups.buildGo]
          rw [show (match r.client_id with
              | some c => (IdMap.find cmap c).isSome
              | none => false) = sgClientMapped cmap r from rfl, hin]
          simp only [Bool.not_true, if_false, hn, hgo, except_ok_bind]
          rfl
        · simp only [List.length_cons]; omega
        · intro rec hrec
          cases hrec with
          | head => exact hid r (List.mem_cons_self _ _)
          | tail _ hrec => exact hrecs rec hrec

/-- Every character the ascii-ignore encoder keeps is ASCII. -/
theorem asciiIgnore_all_ascii (s : String) :
    ∀ c ∈ (asciiIgnore s).data, c.toNat ≤ 127 := by
  intro c hc
  simp only [asciiIgnore] at hc
  have := List.of_mem_filter hc
  simpa using this

/-- The substitution table has no ASCII keys. -/
theorem subst_lookup_ascii (c : Char) (h : c.toNat ≤ 127) :
    SUBSTITUTIONS.lookup c = none := by
  have hne : ∀ d : Char, 127 < d.toNat → (c == d) = false := by
    intro d hd
    rw [beq_eq_false_iff_ne]
    intro he
    subst he
    omega
  simp only [SUBSTITUTIONS, List.lookup]
  rw [hne 'ß' (by decide), hne 'æ' (by decide), hne 'Æ' (by decide),
    hne 'ø' (by decide), hne 'Ø' (by decide), hne 'đ' (by decide),
    hne 'Đ' (by decide), hne 'ł' (by decide), hne 'Ł' (by decide)]

/-- The NFKD decomposition table has no ASCII keys. -/
theorem nfkd_lookup_ascii (c : Char) (h : c.toNat ≤ 127) :
    NFKD_TABLE.lookup c = none := by
  have hne : ∀ d : Char, 127 < d.toNat → (c == d) = false := by
    intro d hd
    rw [beq_eq_false_iff_ne]
    intro he
    subst he
    omega
  simp only [NFKD_TABLE, List.lookup]
  rw [hne 'é' (by decide), hne 'Á' (by decide), hne 'ü' (by decide),
    hne 'Ä' (by decide), hne 'ä' (by decide), hne 'ö' (by decide),
    hne 'Ö' (by decide), hne 'Ü' (by decide), hne 'á' (by decide),
    hne 'è' (by decide), hne 'ﬁ' (by decide), hne '²' (by decide),
    hne (Char.ofNat 0xa0) (by decide)]

/-- `str.translate` with the substitution table fixes ASCII strings. -/
theorem pyTranslate_ascii_fixed (s : String)
    (h : ∀ c ∈ s.data, c.toNat ≤ 127) : pyTranslate s = s := by
  simp only [pyTranslate]
  have : ∀ l : List Char, (∀ c ∈ l, c.toNat ≤ 127) →
      (l.map fun c => match SUBSTITUTIONS.lookup c with
        | some r => r.data
        | none => [c]).flatten = l := by
    intro l
    induction l with
    | nil => intro _; rfl
    | cons a t ih =>
      intro hl
      simp only [List.map_cons, List.flatten_cons,
        subst_lookup_ascii a (hl a (List.mem_cons_self _ _)),
        ih fun c hc => hl c (List.mem_cons_of_mem _ hc)]
      rfl
  have h2 := this s.data h
  cases s with
  | mk data => simpa using congrArg String.mk h2

/-- NFKD normalization fixes ASCII strings. -/
theorem pyNFKD_ascii_fixed (s : String)
    (h : ∀ c ∈ s.data, c.toNat ≤ 127) : pyNFKD s = s := by
  simp only [pyNFKD, nfkdChar]
  have : ∀ l : List Char, (∀ c ∈ l, c.toNat ≤ 127) →
      (l.map fun c => (NFKD_TABLE.lookup c).getD [c]).flatten = l := by
    intro l
    induction l with
    | nil => intro _; rfl
    | cons a t ih =>
      intro hl
      simp only [List.map_cons, List.flatten_cons,
        nfkd_lookup_ascii a (hl a (List.mem_cons_self _ _)),
        ih fun c hc => hl c (List.mem_cons_of_mem _ hc)]
      rfl
  have h2 := this s.data h
  cases s with
  | mk data => simpa using congrArg String.mk h2

/-- The ascii-ignore encoder fixes ASCII strings. -/
theorem asciiIgnore_ascii_fixed (s : String)
    (h : ∀ c ∈ s.data, c.toNat ≤ 127) : asciiIgnore s = s := by
  simp only [asciiIgnore]
  have h2 : s.data.filter (fun c => c.toNat ≤ 127) = s.data :=
    List.filter_eq_self.mpr (fun c hc => by simpa using h c hc)
  cases s with
  | mk data => simpa using congrArg String.mk h2

/-- Every string `normalize_text` produces is pure ASCII. -/
theorem normalize_output_ascii (s : Option String) (t : String)
    (h : normalize_text s = some t) : ∀ c ∈ t.data, c.toNat ≤ 127 := by
  cases s with
  | none => exact absurd h (by simp [normalize_text])
  | some v =>
    simp only [normalize_text] at h
    split at h
    · exact absurd h (by simp)
    · cases h
      exact asciiIgnore_all_ascii _

/-- Membership in `sorted(set(l))` is membership in `l`. -/
theorem mem_pySortedSet (l : List Int) (x : Int) :
    x ∈ pySortedSet l ↔ x ∈ l := by
  induction l with
  | nil => simp [pySortedSet]
  | cons a t ih =>
    simp only [pySortedSet, List.foldr_cons] at *
    by_cases ha : a ∈ List.foldr
        (fun x acc => if x ∈ acc then acc else List.orderedInsert (· ≤ ·) x acc)
        [] t
    · rw [if_pos ha]
      constructor
      · intro hx
        exact List.mem_cons_of_mem _ (ih.mp hx)
      · intro hx
        cases List.mem_cons.mp hx with
        | inl he => subst he; exact ha
        | inr hm => exact ih.mpr hm
    · rw [if_neg ha]
      rw [List.mem_orderedInsert]
      constructor
      · intro hx
        cases hx with
        | inl he => subst he; exact List.mem_cons_self _ _
        | inr hm => exact List.mem_cons_of_mem _ (ih.mp hm)
      · intro hx
        cases List.mem_cons.mp hx with
        | inl he => exact Or.inl he
        | inr hm => exact Or.inr (ih.mpr hm)

/-- Inserting a fresh element into a strictly sorted list keeps it strictly
sorted. -/
theorem orderedInsert_sorted_strict (x : Int) :
    ∀ l : List Int, List.Sorted (· < ·) l → x ∉ l →
      List.Sorted (· < ·) (List.orderedInsert (· ≤ ·) x l) := by
  intro l
  induction l with
  | nil => intro _ _; simp [List.orderedInsert]
  | cons b t ih =>
    intro hs hx
    rw [List.orderedInsert]
    split
    · next hle =>
      have hne : x ≠ b := fun he => hx (he ▸ List.mem_cons_self _ _)
      have hlt : x < b := lt_of_le_of_ne hle hne
      rw [List.sorted_cons]
      refine ⟨?_, hs⟩
      intro c hc
      cases List.mem_cons.mp hc with
      | inl he => subst he; exact hlt
      | inr hm => exact lt_trans hlt ((List.sorted_cons.mp hs).1 c hm)
    · next hle =>
      have hbx : b < x := lt_of_not_le hle
      rw [List.sorted_cons] at hs ⊢
      refine ⟨?_, ih hs.2 (fun hm => hx (List.mem_cons_of_mem _ hm))⟩
      intro c hc
      rw [List.mem_orderedInsert] at hc
      cases hc with
      | inl he => subst he; exact hbx
      | inr hm => exact hs.1 c hm

/-- `sorted(set(l))` is strictly ascending. -/
theorem pySortedSet_sorted (l : List Int) :
    List.Sorted (· < ·) (pySortedSet l) := by
  induction l with
  | nil => simp [pySortedSet]
  | cons a t ih =>
    simp only [pySortedSet, List.foldr_cons] at *
    split
    · exact ih
    · next ha => exact orderedInsert_sorted_strict a _ ih ha

/-- The fan-out accumulator loop, in closed form: resolved ids concatenate
and unresolved legacy ids are filtered out in order. -/
theorem fanout_foldl_spec (m : FanMap) :
    ∀ (sids : List Int) (a : List Int × List Int),
      sids.foldl
        (fun (acc : List Int × List Int) sid =>
          match List.lookup sid m with
          | some ids =>
            if !ids.isEmpty then (acc.1 ++ ids, acc.2)
            else (acc.1, acc.2 ++ [sid])
          | none => (acc.1, acc.2 ++ [sid])) a =
      (a.1 ++ (sids.map (fanResolvedIds m)).flatten,
       a.2 ++ sids.filter fun s => !Alpr.fan_resolves m s) := by
  intro sids
  induction sids with
  | nil => intro a; simp
  | cons s t ih =>
    intro a
    rw [List.foldl_cons, ih]
    simp only [List.map_cons, List.flatten_cons, List.filter_cons,
      fanResolvedIds, Alpr.fan_resolves]
    cases hl : List.lookup s m with
    | none => simp [List.append_assoc]
    | some ids =>
      cases hi : ids.isEmpty with
      | true =>
        have he : ids = [] := List.isEmpty_iff.mp hi
        subst he
        simp [List.append_assoc]
      | false =>
        have hne : ids ≠ [] := fun he => by simp [he] at hi
        simp [hne, List.append_assoc]

/-- Membership in the concatenation of resolved fan-out ids. -/
theorem mem_fanResolvedIds (m : FanMap) (sids : List Int) (x : Int) :
    x ∈ (sids.map (fanResolvedIds m)).flatten ↔
      ∃ s ∈ sids, ∃ ids, List.lookup s m = some ids ∧ ids ≠ [] ∧ x ∈ ids := by
  rw [List.mem_flatten]
  constructor
  · rintro ⟨l, hl, hx⟩
    obtain ⟨s, hs, rfl⟩ := List.mem_map.mp hl
    unfold fanResolvedIds at hx
    cases hll : List.lookup s m with
    | none => rw [hll] at hx; cases hx
    | some ids =>
      simp only [hll] at hx
      cases hie : ids.isEmpty with
      | true => simp only [hie] at hx; simp at hx
      | false =>
        simp only [hie, Bool.not_false, if_true] at hx
        exact ⟨s, hs, ids, hll, fun he => by simp [he] at hie, hx⟩
  · rintro ⟨s, hs, ids, hll, hne, hx⟩
    refine ⟨fanResolvedIds m s, List.mem_map_of_mem _ hs, ?_⟩
    have hie : ids.isEmpty = false := by
      cases ids with
      | nil => exact absurd rfl hne
      | cons a t => rfl
    unfold fanResolvedIds
    simp only [hll, hie, Bool.not_false, if_true]
    exact hx

/-- `fanAppend` preserves the invariant that every fan-map bucket is
non-empty. -/
theorem fanAppend_nonempty (acc : FanMap) (k v : Int)
    (h : ∀ p ∈ acc, p.2 ≠ []) : ∀ p ∈ fanAppend acc k v, p.2 ≠ [] := by
  intro p hp
  unfold fanAppend at hp
  split at hp
  · obtain ⟨q, hq, hpq⟩ := List.mem_map.mp hp
    by_cases hqk : q.1 = k
    · rw [if_pos hqk] at hpq
      subst hpq
      simp
    · rw [if_neg hqk] at hpq
      subst hpq
      exact h q hq
  · cases List.mem_append.mp hp with
    | inl hm => exact h p hm
    | inr hm =>
      rw [List.mem_singleton] at hm
      subst hm
      simp

/-- The analytics fan-map accumulation loop preserves bucket
non-emptiness. -/
theorem analyticsMapGo_nonempty :
    ∀ (entries : List Json) (acc m : FanMap),
      (∀ p ∈ acc, p.2 ≠ []) → Alpr.analyticsMapGo entries acc = .ok m →
      ∀ p ∈ m, p.2 ≠ [] := by
  intro entries
  induction entries with
  | nil =>
    intro acc m hacc h
    cases h
    exact hacc
  | cons entry rest ih =>
    intro acc m hacc h
    rw [Alpr.analyticsMapGo] at h
    cases hpn : pyAttrGet entry "plugin_name" with
    | error e => rw [hpn] at h; exact Except.noConfusion h
    | ok pn =>
      rw [hpn, except_ok_bind] at h
      split at h
      · exact ih acc m hacc h
      · cases hos : pyAttrGet entry "old_stream_id" with
        | error e => rw [hos] at h; exact Except.noConfusion h
        | ok osid =>
          rw [hos, except_ok_bind] at h
          cases hni : pyAttrGet entry "new_id" with
          | error e => rw [hni] at h; exact Except.noConfusion h
          | ok nid =>
            rw [hni, except_ok_bind] at h
            split at h
            · exact ih acc m hacc h
            · cases hk : pyIntOfJson osid with
              | error e => rw [hk] at h; exact Except.noConfusion h
              | ok kk =>
                rw [hk, except_ok_bind] at h
                cases hv : pyIntOfJson nid with
                | error e => rw [hv] at h; exact Except.noConfusion h
                | ok vv =>
                  rw [hv, except_ok_bind] at h
                  exact ih _ m (fanAppend_nonempty acc kk vv hacc) h

/-- Looking up in a fan map after transforming every bucket. -/
theorem lookup_map_snd (g : List Int → List Int) :
    ∀ (m : FanMap) (s : Int),
      List.lookup s (m.map fun p => (p.1, g p.2)) = (List.lookup s m).map g := by
  intro m s
  induction m with
  | nil => rfl
  | cons p t ih =>
    simp only [List.map_cons, List.lookup]
    cases hbe : s == p.1 with
    | true => rfl
    | false => exact ih

/-- `sorted(set(l))` of a non-empty list is non-empty. -/
theorem pySortedSet_ne_nil (l : List Int) (h : l ≠ []) : pySortedSet l ≠ [] := by
  cases l with
  | nil => exact absurd rfl h
  | cons a t =>
    intro he
    have : a ∈ pySortedSet (a :: t) := (mem_pySortedSet _ _).mpr (List.mem_cons_self _ _)
    rw [he] at this
    cases this

/-- A successful association-list lookup exhibits a member. -/
theorem list_lookup_mem {m : FanMap} {s : Int} {v : List Int}
    (h : List.lookup s m = some v) : (s, v) ∈ m := by
  induction m with
  | nil => cases h
  | cons p t ih =>
    rw [List.lookup] at h
    cases hbe : s == p.1 with
    | true =>
      rw [hbe] at h
      cases h
      have : s = p.1 := by simpa using hbe
      subst this
      exact List.mem_cons_self _ _
    | false =>
      rw [hbe] at h
      exact List.mem_cons_of_mem _ (ih h)

/-- A successful `Except` bind factors through a successful first stage. -/
theorem bind_ok_extract {α β : Type} {e : Except PyErr α} {f : α → Except PyErr β}
    {b : β} (h : (e >>= f) = .ok b) : ∃ a, e = .ok a ∧ f a = .ok b := by
  cases e with
  | error err => exact Except.noConfusion h
  | ok a => exact ⟨a, rfl, h⟩

/-- Peeling the head off an arithmetic-progression range map. -/
theorem range_map_succ (next : Int) (n : Nat) :
    (List.range (n + 1)).map (fun k => next + Int.ofNat k) =
      next :: (List.range n).map (fun k => (next + 1) + Int.ofNat k) := by
  rw [List.range_succ_eq_map, List.map_cons, List.map_map]
  congr 1
  · simp
  · apply List.map_congr_left
    intro k _
    simp only [Function.comp_apply, Int.ofNat_eq_coe]
    push_cast
    ring

/-- An arithmetic-progression range map is sorted. -/
theorem sorted_range_map_le (next : Int) (n : Nat) :
    List.Sorted (· ≤ ·) ((List.range n).map fun k => next + Int.ofNat k) := by
  refine List.Pairwise.map _ ?_ (List.pairwise_lt_range n)
  intro a b hab
  simp only [Int.ofNat_eq_coe]
  omega

/-- Per-row loop of the analytics builder: accepted records carry the
consecutive ids `next, next+1, ...` and their legacy ids are a sublist of
the input's legacy-id sequence. -/
theorem analytics_buildGo_spec (cmap : IdMap) (smap : List (Int × Analytics.StreamEntry))
    (glookup : List ((String × Int) × Int)) (umap : IdMap)
    (sdetails : List (Int × Option String)) :
    ∀ (rows : List Row) (next : Int) (recs : List Analytics.AnalyticsRecord)
      (unms : List Dict),
      Analytics.buildGo cmap smap glookup umap sdetails rows next = .ok (recs, unms) →
      recs.map (fun r => r.id) =
        (List.range recs.length).map (fun k => next + Int.ofNat k) ∧
      List.Sublist (recs.map fun r => r.old_id)
        (rows.map fun r => pyOrInt (Analytics.to_int (Row.get r "id")) 0) := by
  intro rows
  induction rows with
  | nil =>
    intro next recs unms h
    rw [Analytics.buildGo] at h
    cases h
    exact ⟨rfl, List.Sublist.refl _⟩
  | cons row rest ih =>
    intro next recs unms h
    rw [Analytics.buildGo] at h
    dsimp only at h
    split at h
    · obtain ⟨a, ha, hret⟩ := bind_ok_extract h
      obtain ⟨r, u⟩ := a
      simp only [pure, Except.pure, Except.ok.injEq, Prod.mk.injEq] at hret
      obtain ⟨hr, hu⟩ := hret
      subst hr
      obtain ⟨h1, h2⟩ := ih next _ u ha
      exact ⟨h1, h2.trans (List.sublist_cons_self _ _)⟩
    · split at h
      · obtain ⟨a, ha, hret⟩ := bind_ok_extract h
        obtain ⟨r, u⟩ := a
        simp only [pure, Except.pure, Except.ok.injEq, Prod.mk.injEq] at hret
        obtain ⟨hr, hu⟩ := hret
        subst hr
        obtain ⟨h1, h2⟩ := ih next _ u ha
        exact ⟨h1, h2.trans (List.sublist_cons_self _ _)⟩
      · split at h
        · obtain ⟨a, ha, hret⟩ := bind_ok_extract h
          obtain ⟨r, u⟩ := a
          simp only [pure, Except.pure, Except.ok.injEq, Prod.mk.injEq] at hret
          obtain ⟨hr, hu⟩ := hret
          subst hr
          obtain ⟨h1, h2⟩ := ih next _ u ha
          exact ⟨h1, h2.trans (List.sublist_cons_self _ _)⟩
        · split at h
          · obtain ⟨a, ha, hret⟩ := bind_ok_extract h
            obtain ⟨r, u⟩ := a
            simp only [pure, Except.pure, Except.ok.injEq, Prod.mk.injEq] at hret
            obtain ⟨hr, hu⟩ := hret
            subst hr
            obtain ⟨h1, h2⟩ := ih next _ u ha
            exact ⟨h1, h2.trans (List.sublist_cons_self _ _)⟩
          · obtain ⟨x1, _, h⟩ := bind_ok_extract h
            obtain ⟨x2, _, h⟩ := bind_ok_extract h
            obtain ⟨x3, _, h⟩ := bind_ok_extract h
            obtain ⟨x4, _, h⟩ := bind_ok_extract h
            obtain ⟨x5, _, h⟩ := bind_ok_extract h
            obtain ⟨x6, _, h⟩ := bind_ok_extract h
            obtain ⟨a, ha, hret⟩ := bind_ok_extract h
            obtain ⟨r, u⟩ := a
            simp only [pure, Except.pure, Except.ok.injEq, Prod.mk.injEq] at hret
            obtain ⟨hr, hu⟩ := hret
            subst hr
            obtain ⟨h1, h2⟩ := ih (next + 1) r u ha
            constructor
            · simp only [List.map_cons, List.length_cons, h1]
              rw [range_map_succ]
            · simp only [List.map_cons]
              exact List.Sublist.cons₂ _ h2

/-- Per-row loop of the face-lists builder: accepted records carry the
consecutive ids `next, next+1, ...`. -/
theorem face_buildGo_spec (cmap : IdMap) (fam : FanMap) (umap : IdMap) :
    ∀ (rows : List Row) (next : Int) (recs : List FaceLists.FaceListRecord)
      (unms : List Dict),
      FaceLists.buildListsGo cmap fam umap rows next = .ok (recs, unms) →
      recs.map (fun r => r.id) =
        (List.range recs.length).map (fun k => next + Int.ofNat k) := by
  intro rows
  induction rows with
  | nil =>
    intro next recs unms h
    rw [FaceLists.buildListsGo] at h
    cases h
    rfl
  | cons row rest ih =>
    intro next recs unms h
    rw [FaceLists.buildListsGo] at h
    dsimp only at h
    obtain ⟨oid, hoid, h⟩ := bind_ok_extract h
    cases oid with
    | none => exact ih next recs unms h
    | some old_id =>
      dsimp only at h
      obtain ⟨st, hst, h⟩ := bind_ok_extract h
      split at h
      · obtain ⟨a, ha, hret⟩ := bind_ok_extract h
        obtain ⟨r, u⟩ := a
        simp only [pure, Except.pure, Except.ok.injEq, Prod.mk.injEq] at hret
        obtain ⟨hr, hu⟩ := hret
        subst hr
        exact ih next _ u ha
      · obtain ⟨oc, hoc, h⟩ := bind_ok_extract h
        split at h
        · obtain ⟨a, ha, hret⟩ := bind_ok_extract h
          obtain ⟨r, u⟩ := a
          simp only [pure, Except.pure, Except.ok.injEq, Prod.mk.injEq] at hret
          obtain ⟨hr, hu⟩ := hret
          subst hr
          exact ih next _ u ha
        · obtain ⟨x1, _, h⟩ := bind_ok_extract h
          obtain ⟨x2, _, h⟩ := bind_ok_extract h
          obtain ⟨x3, _, h⟩ := bind_ok_extract h
          obtain ⟨x4, _, h⟩ := bind_ok_extract h
          obtain ⟨x5, _, h⟩ := bind_ok_extract h
          obtain ⟨x6, _, h⟩ := bind_ok_extract h
          obtain ⟨a, ha, hret⟩ := bind_ok_extract h
          obtain ⟨r, u⟩ := a
          simp only [pure, Except.pure, Except.ok.injEq, Prod.mk.injEq] at hret
          obtain ⟨hr, hu⟩ := hret
          subst hr
          have h1 := ih (next + 1) r u ha
          simp only [List.map_cons, List.length_cons, h1]
          rw [range_map_succ]

/-- A record list whose projected keys are sorted is sorted by the key. -/
theorem sorted_records_of_ids {A : Type} (f : A → Int) {recs : List A}
    (h : List.Sorted (· ≤ ·) (recs.map f)) :
    List.Sorted (fun a b => f a ≤ f b) recs := by
  unfold List.Sorted at *
  exact List.pairwise_map.mp h

/-- The final fallback of the alpr decoder always succeeds. -/
theorem pjfFinal_isOk (c : String) : ∃ r, Alpr.pjfFinal c = .ok r := by
  unfold Alpr.pjfFinal
  dsimp only
  split <;> exact ⟨_, rfl⟩

/-- Claim C1, corrected: within one run, newly mapped records do receive the
contiguous ascending identifiers `max(existing_id)+1, +2, ...` with no gaps
and no reuse (proved here for the analytics and face-lists builders), and the
analytics builder also allocates in ascending legacy-id order because it
sorts its rows first; but allocation in ascending legacy-identifier order is
not guaranteed in general — the face-lists builder processes rows in file
order (see the counterexample). -/
theorem c1_dense_id_allocation :
    (∀ rows cm smap gl um sd sid recs unms,
      Analytics.build_analytics_records rows cm smap gl um sd sid =
        .ok (recs, unms) →
      recs.map (fun r => r.id) =
        (List.range recs.length).map (fun k => sid + Int.ofNat k) ∧
      List.Sorted (· ≤ ·) (recs.map fun r => r.old_id)) ∧
    (∀ rows cm fam maxid um recs unms unmn,
      FaceLists.build_face_lists rows cm fam maxid um = .ok (recs, unms, unmn) →
      recs.map (fun r => r.id) =
        (List.range recs.length).map (fun k => (maxid + 1) + Int.ofNat k)) := by
  constructor
  · intro rows cm smap gl um sd sid recs unms h
    unfold Analytics.build_analytics_records at h
    dsimp only at h
    obtain ⟨a, ha, hret⟩ := bind_ok_extract h
    obtain ⟨r0, u0⟩ := a
    obtain ⟨h1, h2⟩ := analytics_buildGo_spec cm smap gl um sd _ sid r0 u0 ha
    have hids : List.Sorted (· ≤ ·) (r0.map fun r => r.id) := by
      rw [h1]
      exact sorted_range_map_le sid r0.length
    have hself : List.insertionSort (fun a b => a.id ≤ b.id) r0 = r0 :=
      List.Sorted.insertionSort_eq (sorted_records_of_ids _ hids)
    simp only [pure, Except.pure, hself, Except.ok.injEq, Prod.mk.injEq] at hret
    obtain ⟨hr, hu⟩ := hret
    subst hr
    refine ⟨h1, ?_⟩
    haveI : IsTotal Row fun a b =>
        pyOrInt (Analytics.to_int (Row.get a "id")) 0 ≤
          pyOrInt (Analytics.to_int (Row.get b "id")) 0 :=
      ⟨fun a b => le_total _ _⟩
    haveI : IsTrans Row fun a b =>
        pyOrInt (Analytics.to_int (Row.get a "id")) 0 ≤
          pyOrInt (Analytics.to_int (Row.get b "id")) 0 :=
      ⟨fun a b c hab hbc => le_trans hab hbc⟩
    have hsr := List.sorted_insertionSort
      (fun a b =>
        pyOrInt (Analytics.to_int (Row.get a "id")) 0 ≤
          pyOrInt (Analytics.to_int (Row.get b "id")) 0) rows
    have hmap : List.Sorted (· ≤ ·)
        ((List.insertionSort (fun a b =>
          pyOrInt (Analytics.to_int (Row.get a "id")) 0 ≤
            pyOrInt (Analytics.to_int (Row.get b "id")) 0) rows).map
          fun r => pyOrInt (Analytics.to_int (Row.get r "id")) 0) := by
      unfold List.Sorted at hsr ⊢
      exact List.pairwise_map.mpr hsr
    exact List.Pairwise.sublist h2 hmap
  · intro rows cm fam maxid um recs unms unmn h
    unfold FaceLists.build_face_lists at h
    dsimp only at h
    obtain ⟨a, ha, hret⟩ := bind_ok_extract h
    obtain ⟨r0, u0⟩ := a
    have h1 := face_buildGo_spec cm fam um rows (maxid + 1) r0 u0 ha
    have hids : List.Sorted (· ≤ ·) (r0.map fun r => r.id) := by
      rw [h1]
      exact sorted_range_map_le (maxid + 1) r0.length
    have hself : List.insertionSort (fun a b => a.id ≤ b.id) r0 = r0 :=
      List.Sorted.insertionSort_eq (sorted_records_of_ids _ hids)
    simp only [pure, Except.pure, hself, Except.ok.injEq, Prod.mk.injEq] at hret
    obtain ⟨hr, hrest⟩ := hret
    subst hr
    exact h1

/-- Witness for C1: two analytics rows with legacy ids 7 and 3 and one
existing id 100 (starting id 101) yield records whose new ids are the dense
sequence from 101 and whose legacy ids are ascending. -/
theorem c1_dense_id_allocation_witness :
    ∃ recs unms,
      Analytics.build_analytics_records [analyticsRowSeven, analyticsRowThree]
        [(3, 103)] [(10, ⟨20, 0⟩)] [] [] [] 101 = .ok (recs, unms) ∧
      recs.map (fun r => r.id) =
        (List.range recs.length).map (fun k => 101 + Int.ofNat k) ∧
      List.Sorted (· ≤ ·) (recs.map fun r => r.old_id) := by
  refine ⟨_, _, rfl, ?_⟩
  exact c1_dense_id_allocation.1 [analyticsRowSeven, analyticsRowThree]
    [(3, 103)] [(10, ⟨20, 0⟩)] [] [] [] 101 _ _ rfl

/-- Claim C2, corrected: in the stream-groups builder a row failure can
abort the run (a client-mapped row whose name normalizes to an absent value
raises `ValueError`, see the counterexample); when every client-mapped row
has a normalizable name and every row has a legacy id, the builder succeeds
and every input row is either accepted or diverted to `unmapped_old`. -/
theorem c2_rows_accounted_amended :
    ∀ (rows : List StreamGroups.SGRow) (cmap : IdMap),
      (∀ r ∈ rows, sgClientMapped cmap r = true → normalize_text r.name ≠ none) →
      (∀ r ∈ rows, r.id.isSome) →
      ∃ recs unms, StreamGroups.build_records rows cmap = .ok (recs, unms) ∧
        recs.length + unms.length = rows.length := by
  intro rows cmap h1 h2
  obtain ⟨recs, unms, hgo, hlen, hrecs, hunms⟩ := sg_buildGo_spec cmap rows h1 h2
  obtain ⟨recs2, hs1, hl1⟩ := pySortOk (fun r => r.id) recs hrecs
  obtain ⟨unms2, hs2, hl2⟩ := pySortOk (fun d => dictOptInt d "old_id") unms hunms
  refine ⟨recs2, unms2, ?_, by omega⟩
  simp only [StreamGroups.build_records, hgo, except_ok_bind, hs1, hs2]
  rfl

/-- Witness for C2: a single well-formed stream-group row is accounted
for. -/
theorem c2_rows_accounted_witness :
    ∃ recs unms,
      StreamGroups.build_records [sgNamedRow] [(3, 103)] = .ok (recs, unms) ∧
      recs.length + unms.length = 1 :=
  c2_rows_accounted_amended [sgNamedRow] [(3, 103)] (by decide) (by decide)

/-- Claim C3, corrected: the face-lists script is not all-outputs-or-none —
it interleaves reads and writes per entity, so when the face-lists stage
completes and the face-list-items dataset read then fails, the run
terminates having already written exactly the three face-lists artifacts
(see the counterexample for a concrete partial-artifact run); what holds is
that the stage structure is deterministic: under those hypotheses exactly
the three face-lists writes precede the propagated failure. -/
theorem c3_staged_failure_amended :
    ∀ (fs : FS) (cm um : IdMap) (fam : FanMap) (lrows : List Row)
      (hd dl : List String) (prows : List Row) (maxid : Int)
      (recs : List FaceLists.FaceListRecord) (unm unmn : List Dict)
      (irows : List Row) (e : PyErr),
      load_id_map fs FaceLists.CLIENT_MAP_PATH = .ok cm →
      load_id_map fs FaceLists.USER_MAP_PATH = .ok um →
      FaceLists.load_face_analytics_by_stream fs FaceLists.ANALYTICS_MAP_PATH =
        .ok fam →
      FaceLists.parse_pipe_table fs FaceLists.OLD_FACE_LISTS_PATH = .ok lrows →
      FaceLists.parse_existing_dataset fs FaceLists.NEW_FACE_LISTS_PATH =
        .ok (hd, dl, prows, maxid) →
      FaceLists.build_face_lists lrows cm fam maxid um = .ok (recs, unm, unmn) →
      FaceLists.parse_pipe_table fs FaceLists.OLD_FACE_LIST_ITEMS_PATH =
        .ok irows →
      FaceLists.parse_existing_dataset fs FaceLists.NEW_FACE_LIST_ITEMS_PATH =
        .error e →
      FaceLists.main fs =
        ([.writeFile FaceLists.NEW_FACE_LISTS_PATH,
          .writeFile FaceLists.SQL_FACE_LISTS_PATH,
          .writeFile FaceLists.MAP_FACE_LISTS_PATH], .error e) := by
  intro fs cm um fam lrows hd dl prows maxid recs unm unmn irows e
  intro h1 h2 h3 h4 h5 h6 h7 h8
  simp only [FaceLists.main, h1, h2, h3, h4, h5, h6, h7, h8]

/-- Witness for C3: with the items dataset file missing, the run writes the
three face-lists artifacts and then fails with the file-not-found error. -/
theorem c3_staged_failure_witness :
    FaceLists.main fsPartialMissing =
      ([.writeFile FaceLists.NEW_FACE_LISTS_PATH,
        .writeFile FaceLists.SQL_FACE_LISTS_PATH,
        .writeFile FaceLists.MAP_FACE_LISTS_PATH],
       .error (.fileNotFound FaceLists.NEW_FACE_LIST_ITEMS_PATH)) :=
  c3_staged_failure_amended fsPartialMissing [] [] [] [] ["|id|", "|--|"] [] []
    0 [] [] [] [] (.fileNotFound FaceLists.NEW_FACE_LIST_ITEMS_PATH)
    rfl rfl rfl rfl rfl rfl rfl rfl

/-- Claim C4, confirmed: fan-out elements are resolved independently — the
resolved side of `fanout_resolve` is a deduplicated strictly ascending set
containing exactly the ids contributed by resolving elements, the
unresolved elements are collected in order into the side channel, every
bucket of `build_alpr_analytics_map` is non-empty (so a present key always
contributes), and in the `streams: [10, 11]` scenario with only 10 mapping
to analytics id 55 the record is still created with `analytics_ids [55]`
and `unmapped_stream_ids [11]`. -/
theorem c4_fanout_independent :
    (∀ (m : FanMap) (sids : List Int),
      List.Sorted (· < ·) (Alpr.fanout_resolve m sids).1 ∧
      (∀ x, x ∈ (Alpr.fanout_resolve m sids).1 ↔
        ∃ s ∈ sids, ∃ ids, List.lookup s m = some ids ∧ ids ≠ [] ∧ x ∈ ids) ∧
      (Alpr.fanout_resolve m sids).2 =
        sids.filter fun s => !Alpr.fan_resolves m s) ∧
    (∀ data m, Alpr.build_alpr_analytics_map data = .ok m →
      ∀ s ids, List.lookup s m = some ids → ids ≠ []) ∧
    (∃ rec maps,
      Alpr.build_list_records [alprFanRow] 1 [(3, 103)] [(10, [55])] [] =
        .ok ([rec], maps, []) ∧ rec.analytics_ids = [55] ∧
      rec.unmapped_stream_ids = [11] ∧ rec.id = 1) := by
  refine ⟨?_, ?_, ⟨_, _, rfl, rfl, rfl, rfl⟩⟩
  · intro m sids
    have hgo := fanout_foldl_spec m sids ([], [])
    unfold Alpr.fanout_resolve
    rw [hgo]
    simp only [List.nil_append]
    exact ⟨pySortedSet_sorted _,
      fun x => (mem_pySortedSet _ _).trans (mem_fanResolvedIds m sids x),
      trivial⟩
  · intro data m h s ids hl
    unfold Alpr.build_alpr_analytics_map at h
    cases hd : pyAttrGetD data "mapped" (.arr []) with
    | error e => rw [hd] at h; exact Except.noConfusion h
    | ok entriesJ =>
      rw [hd, except_ok_bind] at h
      cases hit : pyIterJson entriesJ with
      | error e => rw [hit] at h; exact Except.noConfusion h
      | ok entries =>
        rw [hit, except_ok_bind] at h
        cases hgo : Alpr.analyticsMapGo entries [] with
        | error e => rw [hgo] at h; exact Except.noConfusion h
        | ok m0 =>
          rw [hgo, except_ok_bind] at h
          have hm : m = m0.map fun p => (p.1, pySortedSet p.2) := by
            cases h; rfl
          subst hm
          rw [lookup_map_snd] at hl
          cases hl0 : List.lookup s m0 with
          | none => rw [hl0] at hl; cases hl
          | some ids0 =>
            rw [hl0] at hl
            cases hl
            have hne := analyticsMapGo_nonempty entries [] m0 (by simp) hgo
              (s, ids0) (list_lookup_mem hl0)
            exact pySortedSet_ne_nil _ hne

/-- Witness for C4: the decoded alpr mapping artifact produces the fan map
`[(10, [55])]`, whose only bucket is non-empty. -/
theorem c4_fanout_independent_witness :
    Alpr.build_alpr_analytics_map alprMappingData = .ok [(10, [55])] ∧
    ([55] : List Int) ≠ [] :=
  ⟨rfl, c4_fanout_independent.2.1 alprMappingData [(10, [55])] rfl 10 [55] rfl⟩

/-- Claim C5, corrected: a legacy row whose status equals -1 produces no
record and is diverted to `unmapped_old` with the row's old id — but the
reason string differs by script: the alpr builder writes "status -1" as the
claim says, while the streams builder writes "status = -1 (excluded)" (see
the counterexample). -/
theorem c5_exclusion_reason_amended :
    (∀ (row : Row) cm sg um oid oc op,
      Streams.to_int (Row.get row "status") = .ok (some (-1)) →
      Streams.to_int (Row.get row "id") = .ok oid →
      Streams.to_int (Row.get row "client_id") = .ok oc →
      Streams.to_int (Row.get row "parent_id") = .ok op →
      Streams.build_records [row] cm sg um = .ok ([],
        [[("old_id", jopt oid),
          ("name", jstr (pyOrStr (normalize_text (Row.get row "name")) (Row.get row "name"))),
          ("old_client_id", jopt oc),
          ("old_parent_id", jopt op),
          ("reason", .str "status = -1 (excluded)")]])) ∧
    (∀ (row : Row) n cm am um,
      Alpr.parse_int (Row.get row "status") = some (-1) →
      Alpr.build_list_records [row] n cm am um = .ok ([], [],
        [[("old_id", .num (pyOrInt (Alpr.parse_int (Row.get row "id")) 0)),
          ("name", jstr (pyOrStr (normalize_text (Row.get row "name")) (Row.get row "name"))),
          ("old_client_id", jopt (Alpr.parse_int (Row.get row "client_id"))),
          ("reason", .str "status -1")]])) := by
  constructor
  · intro row cm sg um oid oc op hst hid hc hp
    simp only [Streams.build_records, Streams.buildGo, hst, hid, hc, hp,
      except_ok_bind]
    rfl
  · intro row n cm am um hst
    simp only [Alpr.build_list_records, List.insertionSort, List.orderedInsert,
      Alpr.buildGo, hst, except_ok_bind]
    rfl

/-- Witness for C5: the scenario row `{id: "5", status: "-1", name: "Foo"}`
is excluded by both builders, with the two different reason strings. -/
theorem c5_exclusion_reason_witness :
    Streams.build_records [excludedRowWithClient] [] [] [] = .ok ([],
      [[("old_id", Json.num 5), ("name", Json.str "Foo"),
        ("old_client_id", Json.num 3), ("old_parent_id", Json.null),
        ("reason", Json.str "status = -1 (excluded)")]]) ∧
    Alpr.build_list_records [excludedRow] 1 [] [] [] = .ok ([], [],
      [[("old_id", Json.num 5), ("name", Json.str "Foo"),
        ("old_client_id", Json.null), ("reason", Json.str "status -1")]]) :=
  ⟨c5_exclusion_reason_amended.1 excludedRowWithClient [] [] []
      (some 5) (some 3) none rfl rfl rfl rfl,
   c5_exclusion_reason_amended.2 excludedRow 1 [] [] [] rfl⟩

/-- Claim C6, corrected: the normalizer is not idempotent in general — a
string of characters with no ASCII decomposition normalizes to the empty
string, which re-normalizes to an absent value (see the counterexample);
idempotence holds on the absent result and on every normalized result that
is itself a non-placeholder, whitespace-trimmed string. -/
theorem c6_idempotent_amended :
    ∀ s : Option String,
      (normalize_text s = none →
        normalize_text (normalize_text s) = normalize_text s) ∧
      (∀ t, normalize_text s = some t → t ∉ NULL_VALUES → pyStrip t = t →
        normalize_text (normalize_text s) = normalize_text s) := by
  intro s
  constructor
  · intro h
    rw [h]
    rfl
  · intro t ht hnv hstrip
    rw [ht]
    have hascii := normalize_output_ascii _ _ ht
    simp only [normalize_text, hstrip, if_neg hnv]
    rw [pyTranslate_ascii_fixed t hascii]
    rw [pyNFKD_ascii_fixed t hascii]
    rw [asciiIgnore_ascii_fixed t hascii]

/-- Witness for C6: normalizing the already-normalized string "Ab" again
returns it unchanged. -/
theorem c6_idempotent_witness :
    normalize_text (normalize_text (some "Ab")) = normalize_text (some "Ab") :=
  (c6_idempotent_amended (some "Ab")).2 "Ab" rfl (by decide) rfl

/-- Claim C7, corrected: on an input with fewer than two header lines the
pipe-table reader does not fail with a malformed-table condition — it
succeeds with an empty row list. -/
theorem c7_short_table_amended :
    ∀ (fs : FS) (p text : String), fs.read p = .ok text →
      (pySplitlines text).length < 2 →
      Streams.parse_pipe_table fs p = .ok [] := by
  intro fs p text h hlen
  unfold Streams.parse_pipe_table
  rw [h, except_ok_bind, if_pos hlen]
  rfl

/-- Witness for C7: a one-line table file parses to the empty row list. -/
theorem c7_short_table_witness :
    Streams.parse_pipe_table fsOneLine "p" = .ok [] :=
  c7_short_table_amended fsOneLine "p" "|id|" rfl (by decide)

/-- Claim C8, corrected: both `to_int` variants strip thousands-separator
commas and parse, and they agree whenever the streams variant returns; but
only the analytics variant never raises — on malformed input the streams
variant raises `ValueError` (see the counterexample) exactly where the
analytics variant yields no value. -/
theorem c8_to_int_amended :
    (∀ v r, Streams.to_int v = .ok r → Analytics.to_int v = r) ∧
    (∀ v e, Streams.to_int v = .error e → Analytics.to_int v = none) := by
  constructor
  · intro v r h
    cases hc : clean_value v with
    | none => simp only [Streams.to_int, Analytics.to_int, hc] at h ⊢; cases h; rfl
    | some c =>
      simp only [Streams.to_int, Analytics.to_int, hc] at h ⊢
      cases hp : pyIntOfString (removeCommas c) with
      | none => simp only [hp] at h; exact Except.noConfusion h
      | some n => simp only [hp] at h ⊢; cases h; rfl
  · intro v e h
    cases hc : clean_value v with
    | none => simp only [Streams.to_int, hc] at h; exact Except.noConfusion h
    | some c =>
      simp only [Streams.to_int, Analytics.to_int, hc] at h ⊢
      cases hp : pyIntOfString (removeCommas c) with
      | none => simp only [hp]
      | some n => simp only [hp] at h; exact Except.noConfusion h

/-- Witness for C8: "1,5" has its comma stripped and parses to 15 in both
variants. -/
theorem c8_to_int_witness : Analytics.to_int (some "1,5") = some 15 :=
  c8_to_int_amended.1 (some "1,5") (some 15) rfl

/-- Claim C9, corrected: the alpr decoder peels at most two quoting layers
and never raises — for every input it returns some value (possibly an
absent one); the streams decoder, by contrast, raises `JSONDecodeError`
when both of its parse attempts fail (see the counterexample). -/
theorem c9_parse_json_total_amended :
    ∀ v, ∃ r, Alpr.parse_json_field v = .ok r := by
  intro v
  unfold Alpr.parse_json_field
  cases v with
  | none => exact ⟨_, rfl⟩
  | some r =>
    dsimp only
    split
    · exact ⟨_, rfl⟩
    · split
      · exact pjfFinal_isOk _
      · exact ⟨_, rfl⟩
      · exact ⟨_, rfl⟩
      · split
        · exact pjfFinal_isOk _
        · exact ⟨_, rfl⟩
        · exact ⟨_, rfl⟩
        · exact pjfFinal_isOk _
        · exact pjfFinal_isOk _
      · exact pjfFinal_isOk _

/-- Claim C10, confirmed: for every non-placeholder input `normalize_text`
returns a present string; a string with no ASCII decomposition normalizes
to the present empty string, and the streams record builder accepts such a
name and still creates the record. -/
theorem c10_empty_name_accepted :
    (∀ s, pyStrip s ∉ NULL_VALUES → ∃ t, normalize_text (some s) = some t) ∧
    normalize_text (some "§") = some "" ∧
    (∃ rec, Streams.build_records [blankNameRow] [(3, 103)] [] [] =
      .ok ([rec], []) ∧ rec.name = "") := by
  refine ⟨?_, by decide, ⟨_, rfl, rfl⟩⟩
  intro s h
  simp only [normalize_text, if_neg h]
  exact ⟨_, rfl⟩

/-- Witness for C10: "x" is not a placeholder, so normalization returns a
present value. -/
theorem c10_empty_name_witness : ∃ t, normalize_text (some "x") = some t :=
  c10_empty_name_accepted.1 "x" (by decide)

end Komtek
